/-
Verification development for the dancing-links (DLX) Sudoku solver
(src/Sudoku.h, src/Sudoku.cpp).

The pointer-linked matrix of the C++ code is shallowly embedded as a state
record of finite maps from node identifiers to field values.  Node
identifiers are natural numbers:
  * nodes 0..324 are the 325 `Column` headers (`columns[i]` is node `i`,
    the root is node 324, as in the source where
    `root = &columns[column_size - 1]`);
  * node `325 + 4*r + k` is the cell `cells[r][k]` (0 ≤ r < 729, 0 ≤ k < 4).
Each pointer field (`up`, `down`, `left`, `right`, `col`) and the `row`
field becomes a map from node ids to node ids; maps are packed into a
single natural number, 12 bits per node (base `W = 4096 > 3241`), which
keeps every definition executable, keeps state equality structural and
decidable, and lets the kernel evaluate runs of the solver.  The `int32_t
count` field is likewise a packed map with 48 bits per node, storing
`count + 2^47` (a bias, so that the signed counter fits in an unsigned
digit; no execution can move a counter by anything near 2^47).  The
write-only diagnostic `name` string of `Column` is never read by any code
path and is omitted from the state.

The construction, `cover`, `uncover`, the column chooser, `search` and
`loadGridAndSolve` are translated statement by statement from Sudoku.cpp.
The while-loops of the C++ (which follow pointers) become fuel-bounded
recursions, spelled with `Nat.rec` so that they unfold lazily step by step
under kernel reduction; all fuels are far larger than any ring in the
3241-node matrix, so no well-formed traversal is ever cut short.
-/
import Mathlib

set_option maxRecDepth 4000

namespace DLX

/-! ## Packed digit maps

`digGet b m k` and `digSet b m k v` read and write the `k`-th base-`b`
digit of `m`.  A map `Nat → Fin b` is represented by the number whose
`k`-th digit is the value at key `k`. -/

/-- The `k`-th base-`b` digit of `m`. -/
def digGet (b m k : Nat) : Nat := m / b ^ k % b

/-- `m` with its `k`-th base-`b` digit replaced by `v`. -/
def digSet (b m k v : Nat) : Nat := m - digGet b m k * b ^ k + v * b ^ k

/-- Tabulate `f` on keys `0..n-1` as a packed map. -/
def digTab (b : Nat) (f : Nat → Nat) (n : Nat) : Nat :=
  (List.range n).foldl (fun a k => a + f k * b ^ k) 0

theorem digGet_lt (b m k : Nat) (hb : 0 < b) : digGet b m k < b :=
  Nat.mod_lt _ hb

/-- Canonical decomposition used by the digit lemmas: writing digit `k`
replaces the multiple of `b^k` while keeping the low part. -/
theorem digSet_decomp (b m k v : Nat) :
    digSet b m k v = (m / b ^ k - m / b ^ k % b + v) * b ^ k + m % b ^ k := by
  have hd : m / b ^ k % b ≤ m / b ^ k := Nat.mod_le _ _
  have hdm : m / b ^ k % b * b ^ k ≤ m / b ^ k * b ^ k :=
    Nat.mul_le_mul_right _ hd
  have hqm : m / b ^ k * b ^ k ≤ m := Nat.div_mul_le_self m _
  have hm : m / b ^ k * b ^ k + m % b ^ k = m := by
    rw [Nat.mul_comm]
    exact Nat.div_add_mod m (b ^ k)
  show m - m / b ^ k % b * b ^ k + v * b ^ k = _
  rw [Nat.add_mul, Nat.sub_mul]
  omega

theorem digGet_digSet_same (b m k v : Nat) (hv : v < b) :
    digGet b (digSet b m k v) k = v := by
  have hb : 0 < b := by omega
  have hP : 0 < b ^ k := Nat.pos_pow_of_pos k hb
  rw [digSet_decomp]
  show ((m / b ^ k - m / b ^ k % b + v) * b ^ k + m % b ^ k) / b ^ k % b = v
  rw [Nat.mul_comm (m / b ^ k - m / b ^ k % b + v) (b ^ k), Nat.mul_add_div hP,
    Nat.div_eq_of_lt (Nat.mod_lt _ hP), Nat.add_zero]
  have hq : m / b ^ k - m / b ^ k % b + v = b * (m / b ^ k / b) + v := by
    have h2 := Nat.div_add_mod (m / b ^ k) b
    omega
  rw [hq, Nat.mul_add_mod, Nat.mod_eq_of_lt hv]

theorem digGet_digSet_ne (b m k k' v : Nat) (hv : v < b) (hne : k' ≠ k) :
    digGet b (digSet b m k v) k' = digGet b m k' := by
  have hb : 0 < b := by omega
  have hPk : 0 < b ^ k := Nat.pos_pow_of_pos k hb
  have hPk' : 0 < b ^ k' := Nat.pos_pow_of_pos k' hb
  rcases Nat.lt_or_ge k' k with hlt | hge
  · -- `k' < k`: the written digit sits strictly above digit `k'`.
    have key : ∀ q r : Nat, (q * b ^ k + r) / b ^ k' % b = r / b ^ k' % b := by
      intro q r
      have ek : k = k - k' - 1 + 1 + k' := by omega
      have h1 : q * b ^ k = q * b ^ (k - k' - 1) * b * b ^ k' := by
        conv_lhs => rw [ek]
        rw [pow_add, pow_add, pow_one]
        ring
      rw [h1, Nat.add_comm (q * b ^ (k - k' - 1) * b * b ^ k') r,
        Nat.add_mul_div_right _ _ hPk', Nat.add_mul_mod_self_right]
    rw [digSet_decomp]
    show ((m / b ^ k - m / b ^ k % b + v) * b ^ k + m % b ^ k) / b ^ k' % b
      = m / b ^ k' % b
    rw [key]
    conv_rhs => rw [← Nat.div_add_mod m (b ^ k), Nat.mul_comm (b ^ k) (m / b ^ k)]
    rw [key]
  · -- `k' > k`: the written digit sits strictly below digit `k'`.
    have hgt : k < k' := by omega
    have key : ∀ Q r : Nat, r < b ^ k → (Q * b ^ k + r) / b ^ k' = Q / b / b ^ (k' - k - 1) := by
      intro Q r hr
      have ek : k' = k + (k' - k - 1 + 1) := by omega
      conv_lhs => rw [ek]
      rw [pow_add, ← Nat.div_div_eq_div_mul, Nat.mul_comm Q (b ^ k), Nat.mul_add_div hPk,
        Nat.div_eq_of_lt hr, Nat.add_zero, pow_succ', ← Nat.div_div_eq_div_mul]
    have hQ : (m / b ^ k - m / b ^ k % b + v) / b = m / b ^ k / b := by
      have hq : m / b ^ k - m / b ^ k % b + v = b * (m / b ^ k / b) + v := by
        have h2 := Nat.div_add_mod (m / b ^ k) b
        omega
      rw [hq, Nat.mul_add_div hb, Nat.div_eq_of_lt hv, Nat.add_zero]
    rw [digSet_decomp]
    show ((m / b ^ k - m / b ^ k % b + v) * b ^ k + m % b ^ k) / b ^ k' % b
      = m / b ^ k' % b
    rw [key _ _ (Nat.mod_lt _ hPk), hQ]
    conv_rhs => rw [← Nat.div_add_mod m (b ^ k), Nat.mul_comm (b ^ k) (m / b ^ k)]
    rw [key _ _ (Nat.mod_lt _ hPk)]

theorem digSet_digGet_self (b m k : Nat) : digSet b m k (digGet b m k) = m := by
  have hd : m / b ^ k % b ≤ m / b ^ k := Nat.mod_le _ _
  have hdm : m / b ^ k % b * b ^ k ≤ m / b ^ k * b ^ k := Nat.mul_le_mul_right _ hd
  have hqm : m / b ^ k * b ^ k ≤ m := Nat.div_mul_le_self m _
  show m - m / b ^ k % b * b ^ k + m / b ^ k % b * b ^ k = m
  omega

theorem digSet_digSet_same (b m k v w : Nat) (hv : v < b) :
    digSet b (digSet b m k v) k w = digSet b m k w := by
  have hd : m / b ^ k % b ≤ m / b ^ k := Nat.mod_le _ _
  have hdm : m / b ^ k % b * b ^ k ≤ m / b ^ k * b ^ k := Nat.mul_le_mul_right _ hd
  have hqm : m / b ^ k * b ^ k ≤ m := Nat.div_mul_le_self m _
  show digSet b m k v - digGet b (digSet b m k v) k * b ^ k + w * b ^ k = _
  rw [digGet_digSet_same b m k v hv]
  show m - m / b ^ k % b * b ^ k + v * b ^ k - v * b ^ k + w * b ^ k
    = m - m / b ^ k % b * b ^ k + w * b ^ k
  omega

/-! ## Node identifiers and problem constants (Sudoku.h) -/

/-- Base of the node-valued packed maps: 2^12 = 4096 > 3241 nodes. -/
def W : Nat := 4096

/-- Base of the packed `count` map (48 bits per node). -/
def CW : Nat := 2 ^ 48

/-- Bias added to the signed `int32_t count` values so they pack into an
unsigned digit.  No execution moves a counter by anything near `2^47`. -/
def countBias : Nat := 2 ^ 47

/-- `static int32_t constexpr grid_size = 81`. -/
def gridSize : Nat := 81

/-- `static int32_t constexpr constraints = grid_size * 4`. -/
def constraintCount : Nat := gridSize * 4

/-- `static int32_t constexpr row_size = 729`. -/
def rowSize : Nat := 729

/-- `static int32_t constexpr cells_per_row = 4`. -/
def cellsPerRow : Nat := 4

/-- `static int32_t constexpr column_size = constraints + 1`. -/
def columnSize : Nat := constraintCount + 1

/-- Node id of `columns[column_size - 1]`, which the constructor designates
as the root (`root = &columns[column_size - 1]`). -/
def rootIx : Nat := columnSize - 1

/-- Node id of the cell `cells[r][k]`. -/
def cellNode (r k : Nat) : Nat := columnSize + cellsPerRow * r + k

/-- Total number of nodes: 325 columns plus 729 × 4 cells. -/
def numNodes : Nat := columnSize + rowSize * cellsPerRow

/-! ## The dancing-links state

One record holding every field of `dl::Cell` / `dl::Column` as a packed
map from node ids.  `col`, `row` and `count` are meaningful on the node
kinds the source gives them to; the maps are total for convenience. -/

structure DL where
  up : Nat
  down : Nat
  left : Nat
  right : Nat
  col : Nat
  row : Nat
  count : Nat
deriving DecidableEq

/-- Node-map read and write. -/
def getD (m k : Nat) : Nat := digGet W m k

def setD (m k v : Nat) : Nat := digSet W m k v

/-- Count-map read and write (raw biased digits). -/
def getC (m k : Nat) : Nat := digGet CW m k

def setC (m k v : Nat) : Nat := digSet CW m k v

/-- Pointer/field reads, as shorthands. -/
def uOf (s : DL) (x : Nat) : Nat := getD s.up x

def dOf (s : DL) (x : Nat) : Nat := getD s.down x

def lOf (s : DL) (x : Nat) : Nat := getD s.left x

def rOf (s : DL) (x : Nat) : Nat := getD s.right x

def cOf (s : DL) (x : Nat) : Nat := getD s.col x

def rowIdOf (s : DL) (x : Nat) : Nat := getD s.row x

/-- The `int32_t count` of node `x` (unbiased). -/
def cntOf (s : DL) (x : Nat) : Int := (getC s.count x : Int) - (countBias : Int)

/-- The all-zero state standing for the yet-uninitialised member arrays of
the `Sudoku` object (every field the code ever reads is written by the
constructor before it is read, so the defaults are never observable). -/
def emptyDL : DL where
  up := 0
  down := 0
  left := 0
  right := 0
  col := 0
  row := 0
  count := 0

/-! ## Construction (Sudoku::Sudoku and Sudoku::insertRow) -/

/-- One iteration of the column-construction loop of `Sudoku::Sudoku`:
`columns[i]` becomes a self-referential vertical singleton, is linked into
the circular header row, and gets its metadata (`count = 0`, stored as the
bias; the write-only `name` is omitted). -/
def columnInitStep (s : DL) (i : Nat) : DL :=
  { s with
    up := setD s.up i i
    down := setD s.down i i
    right := setD s.right i ((i + 1) % columnSize)
    left := setD s.left i ((columnSize - 1 + i) % columnSize)
    count := setC s.count i countBias
    col := setD s.col i i }

/-- One iteration of the loop body of `Sudoku::insertRow`, for the cell
`cells[rc][k]` and the constraint column `items[k]`; statement by
statement: set `col` and `row`, bump the column's `count`, splice the cell
in at the bottom of the column's vertical ring, link it into its row ring. -/
def insertCell (s : DL) (rc k colIx : Nat) : DL :=
  let cell := cellNode rc k
  let s1 := { s with col := setD s.col cell colIx, row := setD s.row cell rc }
  let s2 := { s1 with count := setC s1.count colIx (getC s1.count colIx + 1) }
  let s3 := { s2 with
    up := setD s2.up cell (getD s2.up colIx)
    down := setD s2.down cell colIx }
  let s4 := { s3 with down := setD s3.down (getD s3.up colIx) cell }
  let s5 := { s4 with up := setD s4.up colIx cell }
  { s5 with
    right := setD s5.right cell (cellNode rc ((k + 1) % cellsPerRow))
    left := setD s5.left cell (cellNode rc ((cellsPerRow - 1 + k) % cellsPerRow)) }

/-- `Sudoku::insertRow`, inserting the row with identifier `rc` (the value
of the implicit `row_count` counter) whose four constraint columns are
`items 0 .. items 3`. -/
def insertRow (s : DL) (rc : Nat) (items : Nat → Nat) : DL :=
  (List.range cellsPerRow).foldl (fun t k => insertCell t rc k (items k)) s

/-- The four constraint-column indices computed for candidate `i` in the
row-construction loop of `Sudoku::Sudoku`, with the source's local names. -/
def constraintQuad (i : Nat) : Nat → Nat := fun k =>
  let col := (i / 9) % 9
  let row := i / 81
  let num := i % 9
  let colBlockGroup := col / 3
  let rowBlockGroup := row / 3
  let cellConstraint := i / 9
  let rowConstraint := row * 9 + num
  let columnConstraint := i % 81
  let blockConstraint := rowBlockGroup * 27 + colBlockGroup * 9 + num
  match k with
  | 0 => cellConstraint
  | 1 => 81 + rowConstraint
  | 2 => 162 + columnConstraint
  | _ => 243 + blockConstraint

/-- The state after the column-construction loop of `Sudoku::Sudoku`. -/
def initColumns : DL := (List.range columnSize).foldl columnInitStep emptyDL

/-- The fully constructed matrix: the state of the `Sudoku` object at the
end of `Sudoku::Sudoku` (all 729 `insertRow` calls done). -/
def initState : DL :=
  (List.range rowSize).foldl (fun s i => insertRow s i (constraintQuad i)) initColumns

/-! ## A closed form of the constructed state

Replaying the 729 `insertRow` calls under kernel reduction is expensive,
so the constructed state is also described in closed form (packed tables
of arithmetic functions), proved equal to `initState` once and for all in
`initState_eq_lit`; the concrete executions in later theorems start from
the literal. -/

/-- Insertion position (0..8) of cell `cells[i][k]` within the vertical
ring of its constraint column, by constraint family `k`. -/
def posInCol (i k : Nat) : Nat :=
  match k with
  | 0 => i % 9
  | 1 => (i / 9) % 9
  | 2 => i / 81
  | _ => 3 * ((i / 81) % 3) + ((i / 9) % 9) % 3

/-- Candidate row id of the `m`-th cell (in insertion order, 0..8) of
constraint column `c`. -/
def colNthRow (c m : Nat) : Nat :=
  if c < 81 then 9 * c + m
  else if c < 162 then 81 * ((c - 81) / 9) + 9 * m + (c - 81) % 9
  else if c < 243 then 81 * m + (c - 162)
  else 81 * (3 * ((c - 243) / 27) + m / 3) + 9 * (3 * (((c - 243) % 27) / 9) + m % 3)
    + (c - 243) % 9

/-- The slot (0..3) in which cells of constraint column `c` sit in their
candidate rows: one slot per constraint family. -/
def colSlot (c : Nat) : Nat := c / 81

/-- Row index of a cell node id. -/
def nodeRow (x : Nat) : Nat := (x - columnSize) / 4

/-- Slot index of a cell node id. -/
def nodeSlot (x : Nat) : Nat := (x - columnSize) % 4

/-- Closed form of the `up` map after construction. -/
def upClosed (x : Nat) : Nat :=
  if x < columnSize then
    if x < constraintCount then cellNode (colNthRow x 8) (colSlot x) else x
  else if x < numNodes then
    let i := nodeRow x
    let k := nodeSlot x
    let c := constraintQuad i k
    let m := posInCol i k
    if m = 0 then c else cellNode (colNthRow c (m - 1)) k
  else 0

/-- Closed form of the `down` map after construction. -/
def downClosed (x : Nat) : Nat :=
  if x < columnSize then
    if x < constraintCount then cellNode (colNthRow x 0) (colSlot x) else x
  else if x < numNodes then
    let i := nodeRow x
    let k := nodeSlot x
    let c := constraintQuad i k
    let m := posInCol i k
    if m = 8 then c else cellNode (colNthRow c (m + 1)) k
  else 0

/-- Closed form of the `left` map after construction. -/
def leftClosed (x : Nat) : Nat :=
  if x < columnSize then (columnSize - 1 + x) % columnSize
  else if x < numNodes then cellNode (nodeRow x) ((cellsPerRow - 1 + nodeSlot x) % cellsPerRow)
  else 0

/-- Closed form of the `right` map after construction. -/
def rightClosed (x : Nat) : Nat :=
  if x < columnSize then (x + 1) % columnSize
  else if x < numNodes then cellNode (nodeRow x) ((nodeSlot x + 1) % cellsPerRow)
  else 0

/-- Closed form of the `col` map after construction. -/
def colClosed (x : Nat) : Nat :=
  if x < columnSize then x
  else if x < numNodes then constraintQuad (nodeRow x) (nodeSlot x)
  else 0

/-- Closed form of the `row` map after construction. -/
def rowClosed (x : Nat) : Nat :=
  if x < columnSize then 0
  else if x < numNodes then nodeRow x
  else 0

/-- Closed form of the stored (biased) `count` map after construction. -/
def countClosed (x : Nat) : Nat :=
  if x < constraintCount then countBias + 9
  else if x < columnSize then countBias
  else 0

/-- Packed literal of the `up` map after construction. -/
def upLit : Nat :=
  35646788001577702858680683628561413124962236440308809649169535483169323173094249183561898074865753506623729306116422768763970046715836687170163008487565428059527923769771258123049530607472464405325597207506299640552897184394367586197820968243171213274326202942353925026214709393151834893306669364900809063679348850322686107916861507107331336575153590705101466204248392888151145670514837998478484777839960227758710069006441566267652139588899188313537460620056024243728776989031337016775088441253623583303654646303058782400204065734186958633493055587395171143575411328634034270560652378660771062553881445000056134367547887049582115526910767419928638281873474512106522374016924411862501917842258087186556751516679485028411493193070242332765114896769398888327296399919810614607743087617878273450097177147884078895009412967455877165771386880116588653334360439389718243072465196466558046128953491184159063914295462919671991672239112007992176684867952273985453901210473387043349618339606982211050227383519208637902807517567587734050599486224875974395018684485087441776602767921487067996225482075329734120415656977848332933729494857084815391918157651848923862386164940282708145191356124413207124551514233400323549582653768342368013558443337550954674795526247186933913002607357096681791755365745004926400136345030270814030262730932137758886878145839204174811994253393763885607921375418656651845867390126702103275658106430330599136359640143418105422126112707995824467691196217042398638028184968270152738962037049242186094931685560261824890229835373855211710886210641336213357835871118435856205592613240642289623623104382308418598324739569385274029993945418622015472034302084777550191868203033554441958166376261996242620723956789277843307122970468964347947534798544724088162770204974200026903417371704326784720928453013716726193300503618071487138158236202364650721101227540686202942662969423750638774545816832419818508286259981228516982558629051642482038337603601159338084635527599534845261771561109225081752571728057175368788681728270943396960707668470456931464042449757009053104483806455440273253378235652276905704281383340185269932345064995504165002567793399852135161741378876139237422199814415850724619467601878417579621776358574613362759807402136042545554413601070768311391962171789961556125079699854666901667644984738866600202575281772885249576800381537489486606359138734936540815425596317077430394818526075217753675613335323670436403552148337445146542463122384942603285499682719035903766410114622299009254294751779391598812096100492993697818142240463540216466142257555481780272304727015860909304515025537869636117864906737109346281406114064473982440211535242378767015350312450263260903320274753903743042795140571107133154038939096241180836679419454195032562885919053822778236495862097595414792315414276394010236318131564423796326752038256914009392665531217416926468156297746157538738180169833018980941653900233956999534426703043994606985381076030467453838343500004963500693442161803732952988982800097412722182135789145862645241924604837068278433050371849841272517046628012849405195240935454585200062549687385043870454601215950969655573025318470226641360712588098667331070374834094260648906951947688339228872730348856886720834251405422476215690009195377961633221897185657171070009659516544677286021583692206761049580030528992470431356219769245676081603672575981182005145471397832974267582066589521315378526777673872037383098712672037630433445788554288963582923739231860770961995230821582986255015671740799404881023267958881074438040222173492214819280012148975568780270937983176363635481567170154310808516517413750759512980612108271600985271296432623266125441692662051115667166948026902861313252127801502865761947872118109866648009261680156973841837055017721270708856488841071517783322794031102388773699202517987861563603284884993689419526054100704448259948772463300759926021775560547226792271483404775684194001121245989390061061401401117029441162632839407826615593376070549057295513866928342952009665838073302079682547336445441637892152677896551411134696359341208556315829444074310189160589590141837949997109025304572048815686173349547312038367028693078682847062175799060169910075298071817896115417283266481648907812183248151952988987684241123341501993542449531835946311738612762389922642602608433800456061709198816425039151495682487118510844099179374462188417430436072618837677545312474274620400667526566056254476073950558941602356981174575171960086133350651333809118346350327707472650535159194288850404607204412608866744921222176459236511501597415366347750217555699877746214681009762808265687936186965105594389075931504230919021821659836126560744942469851490601731585361299883444784690065205334936538058327164575358280612856642222065465653891868218775872887014055607108084923362013840744309252901420477991386175978640756656233203253643626228556533340895149953836997947388885794711679893930174783042619909611351873109327483015706574425681106738806021688224834043970501625950558048688692432577471899483566313539405838079028984178043106248424485755064260623827014080800864883025524964351644203169387028926194012905922658056652998936898861674190281655666698178069800270992990701999204245066345812714267880706514111220562955724579009039422005644267939434535453994493951665733896327253294065402400651877271510307896986770664870619298095395249138607477129354612414103556811429784666086987205723726214099317684961717391350757067639220160273809296947888336413317024379428156721374838199201168104301848038091090986147141504386479776934463330940331591367886535756061174910746018222882292937321853724132926403870025430657542817943475285286071814629525659577104625705783410834342296174525626387627910007343190675699847397389485488163745575658496022281092945283052148642863090696585224882264526820916277089866171722636037166523843867046531719185118237208330997762305947302769619813761023729822545737888445262006704225190587262972307750647595547260613049040539623221238532588877408750585697581602547745147094336059310670677421897120143111855331325415561203766676055930840622671286301934782474390453575721127066869067913207938613912587117539494312782310263970995904964949374497915797477121063252914260261381609271358855960901023255238643166130563805738118985967435468432347354180932241924691686909877464265645710589029639920410999825678933138553870026974825537165368479435765452653199521223044300209286770301326267724761947231526143524077997675061386071757423773272877146952255845361997832565393395943080174860443832913428985716462552449942131623399213503031672349240117113860121272575645860274451379111757899685929602260157790593271438676604103946886820106702496595136735102003298400913480235923828736753341034733388478327523846509544855671747657195308563200048795841360378961721842198760468097131736313522394726083117137708428386370926308148481815052295306409315403404499705211045853559561265937894379537511808383419642135464002736423082282000250457584920116756666476608812907535809373197827418220749432105345378787031632070150042508911556037579416202847027118262055977737662869537490003072634953105256834430668626046538262933603001810537441894356588955252622792759247228143715999735201767191114326090812712555818005352467744197832964424920128337568875994974633268125075669540466428589665196669196359812658248416060196848251751621647901495034947869071967950963395938912330677461792345642763084114521978556183230113932857492243538469521312019376140785925603042476214262528488833209307509258170501970640906303995454178659814143308174844537999874309740165101569999993732585061749135243933743571663266716298197773875313613077042196892139346617693316211447706195340948564121443622823077228899016105198213181917593055776521580590404402990284461256022471562384898269250125033970869710694366075384330765316971434131699055556038263704024301167444677045309725999139559767183005668871051305805169913110034970598109717564641061861110206652037161287436727054704889470090708479046485592814105466048142736425174226247113383678098464689085403003140551860647527842966663898914392460018130417736845802858262958649990985815769712052851697025710702684453689361235736156459753646637329589925074230611678435119596919616893201174119196215384416957584897451316359844893690960899986333885213717543962028341246182535461171050107689053969136396626570129536628842262960726271498778124454110277076324796657530109111136579589501106338036573002974962139140781809124596486171190876527933355040453281175216629775287121988990117133259921313225460349310514748975001992871682865332605457316550562663002433545106421947659184552660013859730374215565595719688621073116309974502510307126285483176517415987622961276749755189524299528879446789981574944999454644393083109639881998297717827006648869671721774679398478258371629060123767629945067640557186737472675771994454801750970395079428782219021354832969345353992725536009330132214372338893264360292230108693870969524322966866205206381262063491317473540233994904707588284014473737220902785024066319271582668564846748550748510224683290148667519498457976993117340339434004424671428966135803427515952062909711487939219792120215865797181541130252709968675909738742198792151191586265625064328128725542022723567435758585168047342468583958390683044444720118664819937477538105635640812385395934849389281552127263733353961008999220837253504957233404470697411500371467855753390321277833718069653216755488464985093721611707268581386019126162950709709559957712983645718284198151153018629025486504352903135010177777911954579587062774321895092293061133133285183315140925846174922553133086013567962307441420290615310798973430280784456251241455304040826411958088589343159937984988889943766867884640672374754493388662278760364034382260182401890363862409082157499012878507897308055211667625027920393365315023879333263291468444344008256019285641442897885384024465288978620141914085528623372097883806295488491886005454606073323186148963294840907545130870732828415892884060997305334723101821250909324520051985046606618195577972644364860684650863639444867104807204699645409166759663854481634197741422069316442002896494467688360663360282449481089303063802368539096149993001987059376055652761454084292379510218730704791606084198855799700675817031200200147860002548815197002908524639627131190000088367378748556699194648593575963530354346554961369826971721258929756822673592796675287504351708891524165505695194445022464708009266898198281911516674560624423592721594546982167886257168894003140304771415934474194188620516727209400203865956047249271551814827600094718840672081177643329501987251706932236502787905215301158163418640250676416662683021723894149821179546608089742032602064043833551954253458950488508248583243824272910536092573291422395784706762777862567822415125365537232163161076969131801695277713707824497490981948756431279384956685844044931817383689638965776165893541801464141961876940992977419377681974090652199071314536006290670624012134878330916295961047946552249899705379993922982920830138101222249163734985109143783603654042055980376695051755214029095970531685957432291853473315570270228590898036413976338171931778356201081892149457485622546735321384853986440832577719359707415559307802061596537659758687671772091737602656240239781165067315968257536656730839931077174630805341553466286916954944491874713039656311927586334497100849508559816332060912153776001006077352143803211874855415939656068685997163039473070419922999765710673647219598535787838423787128263277220011278225608977490166240498146854734133160343668183058768776056548287703836158405878463414312882268062349682038064484514383786556540201295528921323999380768198000126842361711123986482413798841655187962548871566210149233099567471751501559580849522759894943961445

/-- Packed literal of the `down` map after construction. -/
def downLit : Nat :=
  3593464701789241035065477861009965220568522584053810855661086696798318432086005891710014782073956509353381349479857421704732726504775001551163865766715857457267125658486998249949139872506706427953817124227819564495633003069538512516986773452876616559421907866935791986601858628440208893633456290952404274272765710006188069180381484872819184173802003136982318838851688330321789970974974472143408201976989267300566549994176427406425360529369016381036131002219691186579363203940006344841836630695385346142045467281223230632356367267738263147819206847590520685742485547825059318221159137169533870926510988651996759853252561545401651593778766125232867553353339535048375628778134120368347134906892676991447438590964843781449508813279060917402571143870059865545416208622481863139401687488447303252309360246067511967165885916241566572894976942378089586245984141210087950557302204691487203524282084582313814870084110635770235766200026160086557936955461187293499688206443635119901469002795570917726727472361776013768789701574493628030597634365538821759663108978515030613306522898102248397179352576026813816373632080467732223124565391021552870928424151070210734926383594294025371431148731370605504065892726222523173945020879559938551728530302997675140265398152277799653593141980912722561051555616971043255055931949899270677581440996667384879761082339664125697889615622090922773400292328086866254838169921613913916960195896870813165346249860598076466812421900631121722478323120426037316769694057747443567791803598498361800189124845270700691549884562410807794318457471013286118907923932810600548262602059249790026860211865569830202920034864061909163356835929633725341616307539435560296505641481856864683885853384885139632118290911956252534861945995573368955100675338270967051091235717686711863722261514188024376265550259627912297415865148400991747407983111540117314664987956103106218348653870571872121457385348097326297913012391204081313925152300099374495391688896935779058403556392096421163181638911588525530438580984072436164995498622310593140050014087423965053288909094411389316776274062762109624734616185213616536644757734249836279471739077182217442676571024127942439481177576978649103262521638084462758050033457406688379332021854468964551776905660119936710172290698422494024522800357796065533526662438167705609725010211947425834455328842524653454649786474309670320391776668926743749760691283538478665132541211733066720694174597945711272050155804440952246683337991168403009780293643312555524903003799967425975712222280431067077722212293756391008542217368238804294610646990400226413732199408150393981844710654055829829667107920298627734706155451184517570797552487492048111434236537895055564506707752932268276662008668714262572160393904147758054026847620909058028844392315131393463920968273460533053809585027033776623748898140039913083809172810016506049641421913627361703606771074658612028709208113933133268572579952955246315336622742159482409221618059526757465350970741630148300234918873239638853812088535103206392457954814210841155551649388971114775531241145774537934758996475439546137206617649088301459323223971485497078749037517648367049433293085728993377576419546960357507555204056605693874294233420781068717541971991732035218054215404920592908172622691954757650253996139167037301612023875363102625838486189907589505332557104850689051283514185571936232610149637749631126576991747251823960174095546432061139603745706813272731584435070697867382487580148122823126992685326664287568748054202452286076991775006297624858106475680263335050685595609563820079647397031042872966535027422246817673995122159602144354047944552855043106849563578816143734892589304153344201376953913271874231655092407330843957947439615704065373096782228557581386066424948375678162814915215602727991743557568246101670545103324123885687907836111831908177415204472828608147944715770325268612492610925954705302919428082541644983493021052222589068918365441743957241154414960574920762251832893959630860794813260801333540972970205576199845543815660052691620895710958381166230999509923404319690325947295898802822916920276515742580512579210000961594761709367919321986601123643962443825519295822609647061551289473886581477946295850010761445015532277491772702530947721618307150198806470363822778807352042065142683392208711970235879993943600790912621744448445209907943297312343045188037506893242369379471235475377631801939041913727928766685636508558980778398516380841086850410500335983519857601410880271238919058567516787681714364685280557845912780032359150566303600885947616096260981106658515100048695304115012082266034192139253679226248667714712677093175257085981586907693639771103934270962136095583289690030494564734709039635618048741488332256833167739181868639323012710190310738098138411985615550432688347530777777985409509918663128328873267682752172858690146352826379357894398929897793044102936666910713619013574912238278581601243443853237518110406963637455858575219002543506152307536521068329256989591014910357948672859629391833964965870677012119574369536352676351672481032844994538540185724622062506482268173501774356436243483716001864799678932375890334101039862331141914694361606560582777300033907854683636964902749518023922749129559283333755642804196935752756207360857104538021996659806945313428895652760242712200045958290903374014365288800043904275311880736445364873780050995803832610218711003871077371909359913941416922907104239264727679040983753211734384465692888689093605204438908278697468440466448983422960323593936933987528308162194355754661837396988896025078793857103994373235079957337467089875421483425096598339080631925018099114386930563350565196948352077283241221298538042972980451818617507128913503723791779252447950987616763129261080634248701465925332409430840667769630977611585714886856845490554131755846408764141747805515536299584675399615015751023548394942986089118534578617951716980887738187212325098603441712403042125913525715609369675498356942204394840857406766465616747684650368471792455124212641497757037876815673277993988881151268691986937647192691762493229888336743871633547841840352962179712732299674198771999690358594871887311552813999087400386952961889588987099138796468790203549798275361279666513524472953507924788279661633076936382392756313469320863358056199489335430083982828884154891067148013357368569218775014114639506931427159534302886205942629817631994621841277395705202357680449139654956067750472542364650827236168049846401668191301201308800894012496209868770484309532735986327147230710605996415931258321467286819504858293404362610036576433996852814192740101848324472519408949857511324303086634543333517597175218489674233187166014696686073980266199689234304096652583403744480493331099801980230977593983811180570768145121347766421503014554248841897701887882228677299991809013022538985194910475942119568889302936334544935829201927664275177722303393983316995521017957587116651400903854392186896449598170511143965614570649037486678972524845636742688327236453763403108903253921618940157428685772426506051553716842394178706086604931332254930946872602875383538397115435617820686444108103082127668089813056865825348956731007135135275067767653594817523057010930512674977200805414497042496096185261248030225889306248473451869926381403256645335278274219230497660478192352813700477054137420123192094506261179874267820170740155888965672861108309835980182876892141701662945998918968283205245750771649352767235911601943815135221365452041185489566255289051227229622446878599611369741268355214215662731222403003761324569936207932396646499209693619848635297363139260965625557393815806829800693000545940804324331846053681167922471615434914923287165040949601968123509269444158389326448223973534263967600104534755507882164809809941007374758547118397305883806776249273506064894556036628235388768244575384739512924016712966884229318978486461583073133758013885777044894713608999581485504782466044443143521973405940083295875929950831617122267278242548146510801883070801155936576054484812975851271595335885001396246943342717825898150243928434496403615263921807191547559378653697630130481388603608203282981175894741392730774539850183739062315174225537782919849758115007286773138053737781050245164512938986325139730834355606986587415099939366621740905109218767252529434963730630892286457214927459537537300146160040280433165814765804521830994768268820347281504293163965946134102037498948427084493838648856577200457643480308550016366026589992382507331064363531079522143196722642201662117102248211207950656871813898155357017769100804154136867959639961588164531493162993461978469819298102621135918397314113583019101492410095144612284150621851402668273495768643969780081656643166527565416758595086267702615220073361878934832891988098359129420206552713800327815499894120066218502161313351290677449639426353487387421648477504204056906371243938727491189282705420464174740069099976039930617844987609522792760714044340353851799792880919972023276058990319705213303393944361551675107686547839662104307562539117495331875169304808397171355729793808030556387649210193748246349060118248637554894345405685077227408471400896685016519677802547874270099762395422664108368760909544177464220705898717478650113868989375680005625667638093433510851053017219233727065820500896234014355120450647269095792660665827238290552260449106110852564155874741960852100676298116771990476394449026932117991238734128276551737748099110394491137434580331555682776118198592119585626558062379261351965087953699032701227134616426607217578335384868251388689603462847213051798825106684325727051294106491184822492069250517491757831885378387939960686712685807714489254996148645376014671927593902684353709378692563624417047604591891289146198156260346047828994851303705972142065312169028930478855089577590048803615687939746772681485212735395857765906403385492220138608419048122335329246901986244042507264300714413447798503375707022992667125510473729950649328203163399455404373881515547870104236886659915362885925553501780569719805516490131609775081692167558875826184853366739019396010303421810978998600661726988414799588400394237233536547819723205055441168929091270843767491782912333420997751463576844383777425383258675786013545290472997272566208340494814655291932569681318395507803727382110944012568556312978189816480066954666836423052798075851400828908135493560203417349687100624440268906288824290009011261519780511921302033673983470169134929824745652836928997323455888779242988830046855224084973768647576309578572528435125996914365856446467541307777230422629245661036651065240526584477466410465603995584390349952027060455350048675709341963863204413511444711307094379575806789385140750863395420737097108088890588412831779227007684212322276417915403794988272888910593287109818758830777353483307123261570272448337163164625818795975423158573316068205494472538358135930894918562340482260297938881485735046106684202437508015793741450872639329736453007484475358127837515476627344815872444121796118492942074088229018479524914737372399615036545937445742084635002536173709918128435535546769773526562953679358832030926563139391747443273717522881550919607753842576661846091917057541806884227045717687474584784238298833802778393746719461914217495607515311612262457765297189429219972202390474830276111117716091172936292132779908694081484650258285955749923175853651503476523967965082012440889891414769565653964006649784658987789491531394497312900378152441406097362771221407953555150885741091551404740376835825008484571381052146239883148336323009122491356689533388474089692062415640348841758760294703985477486033136346922837209010145920733952870462824265471421321494225403554967152720306162034867495638689719630223918366400632922702509204542733363274057303076602803707344320590228738617072360499062049771845

/-- Packed literal of the `left` map after construction. -/
def leftLit : Nat :=
  36036978671606505395492896636690548808534517750647425120773358343871231307554947139265565929762669229023158895735001406161487075054352992863277233789773574158111495548594239530211240616812565333122083832788235837151401968213168958906597469528602715961635418536370080410231071165156164120926120796645781393490620338089158750894350287270427687072792564677945840757949199422706719135184269532701550517886591614287517667841367383337100931295095305819057865984993102117742499346314108174092409417248347660480173950899963392430651684691071465534355729670238438011899409227135053150963139745255115235330090030030250659468370676210434250109381248775574890756557671510003937739225448279408232800113499895335936180972109612069480183499047219644466511522191756051667303810923593313275209120606144005154034597563363398819010528791907468509631545879483788064414494247872514014022968759122214936652263668867465551356768091213998202639970914544052350398010977182204527267330479247723232531378855871450699296106611637108132569851872958946905150880713746780448221713069357725482595871410055102924342001151622282780277977311893741220393308775862605486482537588058051733753915094751428180656399786879769601086394689008010673919758924281340602504363663409276411312390360729000713771142689009789672566611027441117841493101288770157556995893380142763653295099217375322469015344220078647811303046679660138135741755771654165226445150286400207654503841091698673112949202600374122328184038861579366118069370022875420937287870120397955553126516514234530472490598664759070983620801452029954541976026775577965980102308329753096518696035054159421397584929878712301937793333240742728306997791408652707297910571892846201753296974853917736929637427566845565762487506863640172261409802709573638564531474296036322305559093068968922205932190413986708623094469016941157543599525000256674363625866523772050929331203047471494190258596176480496118665441968561416310370473538994674170569298444326972572942781646618798945387153353678429138637905779735919172584120160418417381135824566935420771391426457924459947186424896633501153945663869632743421471470124304067448780781488660656330563508750444842156056525774256184821433119369425713910719944975101336822790072806703355185921333998985464639050369986637837672393979357707785735669727597931978157059073421721052928057322948591342299916632587315277323028963314433505053243047659471784884528274063873223852071016930500548475093637139660273356856355089787151999075097745104596339547194243009496979655160193389042698265002108840209152544749814097222070116002595043497700006845703944712430032035210174018632724025651780913058208852728829605612886532424679408123197070152542957265292635553948081347655325909477468700967514030440671525891871223605064375506350662313985514749846406923528164487434387547667168184932079130982267217047307626026368088714726513588968512768121104513348564655989506118311609223009714052815145612853223281637370907261534751567839244755116745992549294836126333260002081757750313772077296996155927472720018304877141362997747808874754673689885785764990267275832279186836147866114055370531956715639315438597083092587045167063215572428169767468492861457511697536770350951525017429720403261054483940023270859161090106631367669314987832124734699003638082813843528124605053191629752034714637057113601204778856681943740490354536793473924323653790798860709244641500791036468662053916554720546072719375888524748165037950401060737213517595322337508248358029995565855649940589401728299126651944093667040319025898835181471500803873471929065009399735006690902241601078001904211836227673652665278096345920243134005911629641763849637274473866629903704424586604238606026709020549164081414372009838549090752319298405455282414169512881441450327333184149667986247600264128845312860969057358762945175517255198670415052624548407343112097483777040388054293509974984119706841920672778068924522075448055350420823009210159091950513513182252150485346647874774252835977064588680954526202211518024466489407563297154700213290155611596459339177827454590686222863797692356396879216177065436169532741962910503171451892584222449930283827679893941518231542332520949445930710461059252461834236158012562175143934188771698476952234575234794319238618060180085147319357385638031691894703563127834098858078283696442690113395916157256561251775314009665760242935924592732380519570974745287790125806629335020396704995546734986434324559066127658899386011576745349766522520009177019665983311671986720380886943538444868501406930210992273779240691357798503824952820824312654182108159061559569325926677016916427863018468985966104919205952003782380708915258935998880467347978810782178865247505444527762322850441453519882603123799989323557516483081386860015333219950725992398982875871675527356070996816181519314155315123744150751904201696762740546873752309556285820813057377639662631955366708837895658161627824086370479887577281872009730795399035680063834106852626347409723479874557401653312977344125786585814932473515230745771149140255385033604264344575536382881774173010532176022166125752742136846602665399727938506532703927367244486619214709873737196343611053699900778459293811625196175447077408095151142859853495044707544180763613650029225328372732580414184252312351558259182548164762511857904555284803075942770859652787160686452186285215287936156689582162875475877425526686003125378197828093935254791068054094440245967621046811800234121628831104522027794198057354740784203531421253494776292618007512325339277081214259858701306053413227568974984040580632138083794799741644841332691570384311185720233672112840477074370832738887063508391983233634112483653145419659209686778850345890985160047721506488774829807956268758086510710793313658237949217444535640714404057552749681323308364464003009533734626641503023423658817241088055622650606125164152281402533808274955580899913860436404377039573637507034704112263831965055160034113671308859496874550619361735495152009666077496829077735552828003769536937423010800594434903061742011381290293985564245068226480484007285240922020054264687455118328252622954756000330443654474700820702523236526190343817887862051406685357188492434791978694485654130244126382015476948950838575186490145074194771907801419913265089377199977888463486603734957549737469093227016383618119688852037943936566758399412459675091573657609520713127112973665245731734165621597005921126217487617530122123836547700354822919355850325371592305225741476944444711414079819874073173839103324670324888380861277658236316154977474305694556735530407108156255251359184439684849530806177353618920449129871982447254680432292180875981070444120832193911924467629923323492287559624063710272424760652626603449228059784165936602323932527883127047537437371694345103873531105306405230806338360426283268278458626333601372895648295814231016651658880340877653764700199197087032718980763959570813876902202914310199327566183667449476419215337868642968242658590015382615563357625529102554014311270842268435424618274773792331077770039475813197591933227052792545555477851314060423788639838475765893885555105475928965533070226355789217111407456543086630847949401586135334738904214154552381473748460205446766260441751911744652459704328417226734368641263831951848079146871112965864723885240262624906952459926306616461363361929915616453073057229160076881246122375324859323621747042456918292490065698943512610183234080170865484181551919542066018631864029332554224212669298497106517402996952961122851243025988436639924559692956176277392473798707688494905473218382618438955430720945760598840179858758076200037751751190520105681485284390469434783121606812540405403766452434431210004458071520246841648047573992813044905969166036464271491428766023963592651776386482867828608800938333794347596188425220754004383679245746332131136543176988360485040838614485563951531245370791109513766996313130338300850756698727375116826742470954198562904184472204652674166553952448321110032543207904890610563788359258829197787197656178662713453083398568934827491656457472733413494523356831775462594331516172170609660091983497199783069011065533431400487801674021026903852879924515762974320356404277015196426154680973395771286205504930145975917978909462911222183621280349718151695314754914343097776844857719740504889713246325730344613620653183658297276248890840292255941267668339352362344978179255363168670468554770930585471762814980088202944469126630280907538289169302737358553021016938876083744534009443944220136224960489371354734856249402092532103246178790970869242104565941643292766605756978128246244821513857455103492450157122982500110015911554921083340059089927739012785727842751623351644606071033276954848756227222821314139064833729486748459252794240765275365148750201819177726795967654637010554301161451884486380769151154386256599203527979015109914887903305234374560343518245471415152093830116845108200189341763629659054090828633762793373265176278708888206505184293773444405666364753840884173929161574100889085006559169819467333346771296954044779415195629621419630779650303487325214632358791601294044513507447003900726176500076101589974004472590843057040753024710257779302269319413239014717639912901936007449130591836211076795864048264947306786209090790822638122373754177471108937536731870980097920051633265423495598267136458971040477109594367764862062933639323318970097030922501308335430344866739574963313668877471064209028260628152830783240666730478139339819039480412097540582431129251191803287572933199671189798100661083082377819554344605902385730954234554943341182446460044849218692032265877354880527363251385444778195421368390151685354880163985136344610083940524401092720002703580799821749006754309936725330350949891552644676436859072687627494793864549214981749691299487244692960942948054255864454948316080247835278035383775704433301500575413860851905513121558184467720675835452703165449128738370835737770768388665562581494672574633813965390124583285645222119940477056958895573093767550577226904967044527943720900408341896405826567004544672694915152181353275304667676992182362231228177145718571084103381604855914163245314605980030535262931780675228669305054996856910345903483754924652108562761570084123148833496149801639583736676426060881928513141201673729101348478829839070550370038171804186094373387383585502550588558764407452729582616296542791978215604398825336587579612538449851665291862758478745085434962542069028021168571164498247792107760515151593763458774122036722790577768166167515906962051523705199739671433486509829062903465225674328023615045939660855565957500190425744908787001589781668403598234157319628968878474117433638878911150472772975489221208501589973284523132925621444019654587827793522621803862219876193481237335486218840123528236938635537513422467884113802193116823851636896550099450847963224528146786439716351855538754562678172164173398878287379014437324827382490593457842178702151478503212476069981495331445262595051849909019940907689735051171068101766372896951546526458235260972341292627797111904002877707823431645731303920143288990197799322122002422440713703472315974370989524948524648030590999956839240528135680147684890674128258535512603037399224127077061925052673435590020634943730288393003975268971842110354396787874887957560583709564329971676805196623431938431505390812935630456269705619323808991907116732776496620632733724030151589524078995100631730633199047759179383572030635118720730024431991277926933720521282180907344661604523537244688136323404411994185828493460868995830352142484086937321533910272740679232307804397448248701554499027178758598866343207479678930620854285699109064117884771707611888009152400289591212207747132459086875073458328758077806310130424787117429602704076896831739305528565914766454591756049570437044778739695940

/-- Packed literal of the `right` map after construction. -/
def rightLit : Nat :=
  36014737618684431944202318054172676877691686937924900532926741729046560835618646479040312614515859669298442324820592360901713646826491553444268480261029163305300563454831761110378898473833525884663392296679686501053473932297625234909948024856925816853897106408201779442867440397360837671589820968472030655444278709281237988593308738514301149134725118148581477680043006646046524810484222423756463614617202772168632767434773429547129453119290046047685831762353322101003743546175558911393799185679619283267013558169392155099507830600417595942009345666197228510323505019927827369801662125503547599713012750303853413048205420466955630660857982550940889929959285259598524673847630550971454349690819871659476712281615297041031695967787374968331393630582406134589109479137629766839570919933168571955817870138764317279926762463056817600274526273025117063597889894325978259008868098555886911606250902247820049921473042555167448508800826758115310247177728160827713768267604621918210205031985847756973707254649931525118367325595119888563654209335301365782964233583001634114832651285258620616523093909213393813298996101751479861051180029733446693833391978378620544359912949402433202154270568557828233673612811006999105021323231204933955164532228797019888975347281550003334932482309173340209747159568647107673576863317752843570016096987425430084288824181390155494027532100770287988790452636405455630978889315868703177581795397043782153611081247957712846549533378465255012223052825287677141064201415595618373381206659289272940995457536084303848620781028173146673474421803730844482828547918931501321438366509974226794011749264638887072323705525424761687798897471017991753358847583433300483711195429646829180005706253912848200346923621772184027840104150222929337802330070599772857800492677185958709109303422308510041848659338050923621628817634835200744415451446041502167325894360384368176187736134192929838003125252284263053475323898662296975161035795777541343145805853628014361816545277711349071339357891693514315462981671073893412280788685480668790967178066017488800985547379446747471327482735998237865337957498749479647599595385268055448731614588273346051391871391829283006583984861590630377705959176436388949342217632650106384916244618176537495579116543819467329271376103241472493713001882506339552892117206462928344115953126516509283368955623596674290242586274695589394909737003932585044347885227419000206340799781741042165315183997839630671521147239933991073835776579424266117293780620417465768311995277406956323507843949206333304104376415931334507573891692269343480938659403527825219211921906026589822559581648716151072557671243846110327734020007498286113174125231532947316189972495816652665521709997042759181552932423733417561030398116882393702391522120177493989889277251220530311485590811649442427501042311693832005866405081837221512485700656067948165350994160488902122288942292159707143628344507358446963296525181062782995143477275562596710192834983142271960101956866341625462564429346105882736081659458589878942327379014373508875196237112995305311547235838666537219298343402223556610694964504612647442591140014021435015281812274579628039716076458674268547557632044816966274924386758679897097996254204006638365976330754196842850112648684216382778340609600979348063982886036059609050184088815597704902003909533811431980411140740346183352327450379800704225215425329933387697362487401144065422398419470996771927863462789162029907287219196246093043719984468535835754445898794189550791070993204318518631796274475895632395210241390462460795381415269303589863231580010965205041067423516045391703889772701447513776399600683430665359150160033334426508949133064505443880159742623991075415392195895833758235524717150651136441608323562918892249462066093990656914150278827495163428959285314238444066711564111947257782081818108049745973256319718893754806694426289061799102602264927411505601722663395574391412628486617580811258724614188652455698276394120747064211837425407013566114355110178536595513968574529873651105025533806957431407045495142068918115917042220248272767244028503795884219849327180181535847121115144715037328544225088223044734324149482370171517096710871761265901509165429168422721595735046420982989576001618795300156034163070721896140920836069562610974137414411996812634914525279680232876021644087039285896031211027588101617414479911773579696277368515281327400649454537302516592194876714591519800342740218472967356089602763351088376395854873633462203393799044822269315285436824971023576255459379641610299945343602685205758198353876669101185952066227382753342329171331094139945465335161992310799349519296833482857943490377257054382537418875057919931249325780119474652319301718957370622267615073249303265988306400508777795280728464202383615959923605191324828165285621873441423115982453832949349000514772011187759507208980066426369843360024449450283146820731457767187452183018656652538348440406072980018858180077900550286556211407064928487088135572661137482580886368658501157309987786812855372214875477018926470845639062041018310911176933197258894359904379697566119187141359247964631133366761666602447813187766084629025876561172784178269972122317651566457370128937266358086474501651884539716372674419548387077692382853377795492177438069596962705234783602371540947777593418939671241797662186000499507663402394114925207453812151709550689081121770541352187946403862305182887622418977312583878418383175417953401746761035042607867220418817872214813693843611565978694667476512412782832492431826851172109323261984975574688929884056490110983653661053335549130468876323553759789470031325421949570171744884054975825739031029589041928224234563998469622128450444443551688863063229672040902698331399356472706077110200080062500064848370061819513622795638960479781439174496801385776598304784244257630533289276475892666690196824889004474518416029439627297378168282655614888698019972605869290159711975573007324851932133289932178026697143185394168729481655157984323320731020139251493355426631294919550799103535212131892969561025197682171558795796250635470373491517521208604292532444236668801632378901431511087141784346088403990361937385043813187269787929478532064901819363117255764617452837786309564563936890047663233661249410908530760835905861408771370665331656906009978972893532883994424465035336768022233638221734846194570894739471900766956314389526463561221894146739861165472393652916036012706062943391728995158843475202997499850040513935167286530936403629962046152882907007650301306704094886544558264977115068007093738722379072944889498880378428220026663977710591104202115143775908601487820761197693752156779297203195751948228920323885488988735140105040016127574038385841783986821464482542078060166530847350067362427848309029392744854860398394745881275325484019455655474830877430481110228112609216893742489998019275303011452608086671212654740689381781134191338401283900118279567685445394973081827307366182015313526385546897742869157101902346785700289993781218066241366333094124181204877413562049403121276736476763224361032183242997016516265324531625681270793577277602673242441759591975792116933217399612949389494755132811345538990197440473867655583496875277181853774623723406897500872223798125930611848488260961973656348061242084066600723469855671801384238406324832797518497368239811104270616945417970564109808566067987789542004512164539034803408629094170391498924144423148590220298273570674647446229635207131486047932361635623565475149082314160365349718939610731966554517394565885807864124831324628887351853526754917889127637714853836630995509724157688683468711764335030546046439928852398337198035216067491616417220626073945424186674193672440995250789439068958434512998771553296628739782531571107733584862703491312178316418806906912266189264602915361817432478356667538818673683203830050096664138374939184027778787359035093285060982970787551795988838758195412403042899848213241536658394454995862574441649746057067802472108262581951105554418493160113091403427453229419967275984541621381405527364567466908553836744163182575156723472202652556780480398528771164614630963390453719219209833534116953330920293559616347220000431913886930939269002195635937096022336515043961486525058605533430792445383230409001379624931284451875001085004363985460744727959658910269358431887752796310631676929848374491075267789838060268088282537473179569486019559630680616062240843031733966852738171277972229742303844578623813160594015072030653270043825328256422941282350215883094907248663544728937772215686689064967502432562069221189355510439722860510601088387356203089158759493777937001636354861955593685098156701251850968276661317842675743059548859750430599657408267883939278182417675153722543019270354606396706072290131780613003993122854130656060838399231423269026705360842254366636133476759241743385938272489295800917777747000197735924986873805388261270875430267799652995675732930695018879584414355208950699702151779958010497795856660024006057807686004516179656952971322006616203172165832202708889784255696162504613562945303457919001493645197371787426045948359981106239063483695044355079913145159285506565385426673108591854955120673139097946742278554108016952139699367664516686868236712306719665841059084881658692470550528087000103187637683572072175692028414851435916420742479186632507036487281190499461772588321672027596736250700401259654196928256152970012622608017351387004394400163162272992085865302155130066363053158523970335515611018624302909058094009451577345979819263698639155295075480502048244792612925641988216873428462830612110681252910390694264490997116589692609462699924340788609718102607736409005926280325419831452149887663773447849098511118265400466683944443257873402616192033073240606464913415069542164009583255654104657710984140402488009048748591125564500161810414529370438188290977012598489161526912101297036420187651705962388497427861520724830270440467139638904349453689875774568873388921624803188356373210961090411001607924433677022986447927217640614460711195718677639939646101655083607532825180225823898057884982084288434696237504770684931538969338390426871743913874897106472600371307968919778205642590991782830179247587365224361634413947101335129044702822884714335376697189474275933756998694754026443608013288631981772038134475391169444454661437578845074800588491776762953114131898683127032617918876588638116034323801880908301647061325134483757104378521048557771154207952267073261665200879951591093888560246949293162091584546930588417102959050697100731605021348032845588750386538380448850875979631342295090128960914513812803834036418909111916053156621762597983042019145764925313275173590388028361931221967280693265482611013936741775630734225299511369691124394995750687460049362828440244309168411127699599925042839747535144530121682266463587714359369303401357496663526036533366136176643288450247038372708571941407735361364415025610311673747589176847575404937587690001933205511908097300314624943781231168873351060168511638178006798178593105451157611561975657270865531600559460946853813893766445311454754371779396035871581970012548153436042649159428483300064309194624345810129123012001644834340548873153782204153386441155696376753038224756404380130156830242412636900276350826460879777067563484422084601107796016812315283665778880034643997555989057133804358018841500532855863488382857055219983903811249739412351902175773965572261128851641447601342690904813189461913732424037260009662381783616076684357942715610162071932704375212151343390164378989637175238416069497114956870282208660145557657956074043943457082475198619075784438491385028003729693357923709119241148991914043432800254084469329193853035137918247935923866823381734354051159901380064859371173329010181575608639014802091290865723461726524308666890024819506866964814440177665

/-- Packed literal of the `col` map after construction. -/
def colLit : Nat :=
  3593464701789241035065476045551314791386553092823320689484574030842411470120171894993295231873129930416905996889856023951607989632763928429061930591484254906483371338395830228493133113237736944850080069013282816891602639129556894378977169590785198959631083396591895672350350386386597503808174905671337188650370580395358551580318724993135304877036828573169528134965410095021740109736275002595945459894399500452530419197076485267954309959043082718711361048543932622947230379509605627394480629870895119887573975605145671419673844026508818112529512630334563063600352480112268443439481885011459892215796069163983184789627809363768387629966612994121077571396524125589950393752665502958257823158528475892897184656902661449872176147797696950814451881774663264060755874761077657131018712890155407870119071303564514210371800862745159174748968406574749610973728369253599898812352732159851689111234690216261220192968634639181617968112763398109832374016241688947838308205057947903888900555271863623981343239614619819277879642061514341808444650927038788189577149216274137691475588440135308304247521430922672960468611511981262091672563922130651720774875178003755727564478527255072906918008467492276680994807600471920099958303347762577833643532546554342985064172197937777200155777233754178465634476104767056962377962613269882677473723628017598665381853456348530097474644290861041254485762538184274809327795633583600425167460070062154929074857634351165343207857279333991493679350615286086973667411391184842709120043171865312877990664747408628089961291643087970799088049792917978417132052523785556644302789872615370455059965569634975709041532629733684415183014529684328664642125266388056147254404515316913419026985773305631297911174986857320453838698256686061878353808290460526999734621439211161699507082607334954490818488542187791091862886665702672280554609350088258484986745816930230021174047004311590079140439382548421538814632617969868252737666095597946393284024634302733574751047259578597553837207627785984096463967794891219809798164189266337375175164271988455844391506581671390287088913675177406218751695190884421260282403586718032236688432416084750485064504959859102293394801934519536071965948809572309460749001407077989185102888426492496859449349751192954874020556970706349203377536667203632593473528985523227001331070611185566198675147352774612837476145719395615830947175984403586284239333760800421922112018836410139660710969190783866571471443625849929656123866860003551767182233322604855399447043976150229921176837064008999554859319399542361863025481186390373234008622327903787406852299191340952414734500841857447726730249000878262179631241256111153438507767353645114165731002163033461472887836717821987415877451357281139602147826559524788523794273109698857057029171704376476233147806749901879077542491880318628923362669894038966003155079199775923100302232592497924572688854205166851815939736980308498954463187330686103918085119070601790775578219792619540704843019021863879334431525118795352705224670504304045892147346679360283521445655949757432929989263406039879867790208702001375300652319434705706445005788387871014907961990507449158326192524263197301735538413183329698892177742286574026182410233383521419168185201747035385661554589295640849193354894114504828403779000698464560398901616380675556215729038198502213191642415778286351718567916145697598345945158493746597400878908828479370568208018096466885838532413245014100930590921472958933086544157855139105529074188973547542677072754159178975278790520212536019685272159914822739381072661775014926024403559740612494287606760139347740601864135169074100396117122154203125455850381682827468742554062113726995453553981633429206482599690463308094298340260363126922647549599463101345313311283481856424693588518603210180412472352250317830649846749970146803191152672511860713457233431917936433470222371567705417049490194469701403295415213787576067001786288939696028078266539711739968809091170637978820196770312757924819385394458385148162180209260058927506108547515903172698618939122714004004235421503120892656236789431684148573383154272590767112720234269654604002487551775732616668250208805204085829584285783377894747099223678569654094572210094991019347190109075418517940933004166615255157129409992839390365678416711358920261857609220414397896882923666247999254895945345577498610859862928492049567283588126271351957258284471648739914327313969068447929338363666935992786039649137151180000219354849396040882133814705553245630436195222587383949948671174433147192746252257669932767878157570150811736964996536468543080953281157091635681997296123812932950606181634645710697463714507173544759995036173951689595002755295914754616135195980419693645425960607249607165785874081068918163878550181804005533638468072476904341514265995522572964195267765643446726929852737432864462901024211679267609676177160466866586928197083287281323760723543505263102419903185178702930187355453783555534303459043265527427649087220623821825892958694836019571163663640819669657407738886838423440497744331226470336945650590941749701695311198453830058587863720342455764422480898281435545315469009021327400657735023986729528158467382111770909639892608859752235459998613169241451477991647351377014811366556249510837896986908827005206095366286958689946380045621451371118063910719814419758476136990772658301068592739769782463225636437676379733812911427189476807480752298608730879357583185976134967598664273834918949492979896680260608577018050155625640568579386353785993748780661124629255460349467493795521872716384963538156647551575647459513298767142373019717794857484498123288629595372955083502825036387643814119737750175299717254784674150629118177782581978565882692539994517144175611504996902147883272533307166627372406114411996537663406140689575931582808676569558581342858353652930669859016181542694879458326994424396869836091597079008713903798228920611428762810774521358013808120394238633395722647026733218426627296174128065833077574726477905702752571911385622152624721275449363904608548004383223040923388647675265140200996442449527300405282891007256027601650390579583340182112932706701659444071050291686476805508419538437106021511785663902518660895198801336101026981324007443200819508068368275732147971055831582502226583378730928653051236811852935331809903486209560644028854910559627847150325752687713503581816261962977567500552489533448778898847614233026613379945141617082538544975156248706724999710226133807871299498328180715995554783751866211036116718899132043648126234417760965647719494202798656294208033433728850008755493538612515228487223323419490318567824981697012578710674978887550041380530801967996668678187099433819811903327306889879447639602177039663478630304864192084458014642683376024470495617949919551855827618717688759076194984299360900622296423726294698150409691678806089398212104882334444029047274234373567054843116113366863279605694458386406751208706213799944657608007465993975522756873671610955683269744930987912891684726560602960120355255444774613915302321215553546134324313375445920604254635265900763723101862893247373475570119128294622895871065620569706843805008265430514156154207461267574613140926276345624672401066113992340063660868503015829814743353792154454483891528699877983992300396552369314848172260661425147166035571762558030130785040810534724296165515447546876229576946569038580393837107981606991705914732087381144405161173636370817379342294272494280444281680290270781299240533845020141427990799868335706333327477660536269324194767073551882303471076874241017905694358308723110415462486001907964285424318817539041715999364627631034032017559714946055597361254812108132904735730513796938897903541354292761061539048849854289232735036228827082963493010968720334762869087306779837105545651590476425102104613339704410224833358699982986529743794410766515242914628375383524366072055183967373202392119083627961053051767100063827107174159537466048241547892444658696608488881497664118307596058465840685170240040871205332122335671440435641015244002838245190619559419132964489153245588097770578591795391302448479873761721070871859668859724747249222945876162899893682468559975854151365902844371063629864184979572664560442412637269702949010618235394556816058492133370804653101690492332631178115324475403913624874006864102129302319435993058037507081901712755715308376019340399365227230530166950468855916027586491441847636506825581061930428318943304609941318714321956907280975977748525724261018909025533018974297600083708932366774425699593504380096946316231183357753362662890516130463419679690839313400922766514601118652202322284310360785877586401622567469016728338824467660688806527243253239607124007879014978870653497135428157326426797791498809523003483227303237044790832821031646011863693562964203364182382854830136054427201255064294539677303693061931082954455876814756689646333962080006496915815236384830286888839050538494071174788806853438087096074821109865475466803195070058426650990759478145084589632048328799158941625200272271176953628723096282755935858319849171836537040437078416320491902844523903540176203499106504146541410130897677995066929563139637221495166263907382327820902415168378788957723663234253055215549851650424433470056654657773274337838336796399577527347290497807976732349162480481704738773676077066838346625126640356149796127142808418427690275123463207866318038570224084449400546139480816041730514014692935276395305281937626263273207648962821749655714783873605979372645805419055268833287281068845470594153078594662467713280809051188496233956823881924763625961907743280573002918198787487717732440850993234690273934387360441669305222970715351504116843580858067046018383322439146173985386714262115675665725402058418885630187288698826310218109448254183778128017672388962096453151337387427261090190340459700158547462465632105738661007600660346502893555544399765458225101840761607498487079769927667371669077812097844658455706956387539110539955859904705770703025838373303455714125197173856843884413602666430297072749528714246105224491919176486494166444767636446486515821986123964013310357849422665197006428273033193985805130504961698544805889908283891712090732913947584123856223878599560798502642993897563162102090936117210210665421368079811862693336912589957210128608362573028336100537255155520750572668487114616446784149476650348273515965217288651625245202705282402782958293206015191865752610840465098358764046117676564521963411850732720902463564968635425358030337295456283800276438914748671385965848393156864342589919355811811659055629568705244532484332070515967651711033352240128388891640472935765011105899730788949513479570519613261430952218745787716754048766773793154787384416136021890470742513895671471741786655177586766544818746063847899888193926859471586450155104809829877809362286938398061909139937037905021348536183054483031122945953080257819876826009760644380468541313990747004114162094681052148020032142168521912729315779935320002608335093148305191339160987251920285581278951575528555556159657255168423285073843776519403117827246013562886479312167241842467968715240378035001533619667210383157310091714830894519463690580043871843938030689944034639641640634751194158012532597904304771551921699476435339126609397119002542777250022056651836466281360277592824167909423924062790665471675527007777676265183060160184960682238180799098395613050319616314359496280300325901988579539928614036778573675392598149940711816406058817388526409590262697209084454074116646490819323848021051118599612755529578555340088446452877486348922701702121027295050244670939456154532699016262409173216232921168951580474812254293159067021209475412082103337475377384275838809834302266217852291891917877586007628319992601823407527531128781566461132152310386471410381752082589092770715054960021504

/-- Packed literal of the `row` map after construction. -/
def rowLit : Nat :=
  8099698194157870148853430369866586455466294277484600495740427076431674097833788191875769828808889537148201368459003848510098753609434713818387891745054937445022753568447072982523365215702040069369372307198464235966852039652078821198025316739185247239388585133919780744313555197636839027661375287309782223040005470712262597749330130692189285192386315051773584140084825460769070586702638023182796029696238555452994627440018744013798029255245928983702928305078033994280383561960322950368694737607741624648852684461379499518303132951200032757439883186243642240304794651967235970275885838191235656237162653476041165525281436855720375305210913566019929589202933956473797113278018109141929518763409615185421008188330083392209057881209754773063283663880431046940018874720072325922100544047828578742059663499166162640773900331932721809054224421389040785329889795960592862592680661289535814641146124887195615988844564225549483978800659355261472173686433601250312454435056152516786918405911537768841183323758294851070098830519148646122215573957279349777168499884615959853387314479000412360485754429172598123731913744606507103617135642146259140467560469196517179431144501144997796714610385585631549825852867470771089234781658963281552816205989717837592702862476271957601851725670855605499791716212190727931917677835785832874538594628866106137645343057606448447166000057900594731784658697491123813228691140399641882689776530867848674920230413125003710359494774539440294935560620972601047377468839806394418182923295659910458295612745357118069160052646922617824139511917270406804409699172358033992745804287408585405636787419866067877285647498880215932857825172841927070074132461925825877263160764905619438195869769210729885535825062104797095459681764506532389948871584752767286607155386336807883073214151366745822495127623612939139823772126641581320217835382753128301524663436147738641176447826206140787837502446331533154106736010031208324434885224466290332073731778341427889729462607377676993460921827821035370394107797400828368909709035175801800601179133256647200135450294474615543867089136449579538779242664469934571389136244005898552709583569514534130239816369776277155218281481621067108592374336884601781166937740674877203451288560948547323329399330589034953930131937851718130875005931255161233495909287904068012343936268244112704931171868078818232797013147028131613244839484126369053855019562434790218026394023074915269743650459457845255241951355059668617694892327759316354170228888626356545994632433309365470419683511365171618655210769880937680023277678469218613911747138079982697775007182310134161237275622109662405526301190257468933091407197759012145477918128605130305951515665714719073339914559829197343967126603390163022183269259968848334600736860768399692609686079702385454442216468809711059441780470410429606849515200367093014999995680110016164333810401649360635991577366796341663857807205377019052843294529889857069664690636976495352474451043080038585501370126731938416187696026815939949262627763235341886628188787982134577119862514687520946701234579697783686496562657464590972017350587476658817903956440250710136613411342426835477412101992545505211772015071763499894216850530943187504819359341816451655451032584584712927847657371824579218636311687155061289265615139021188687338231457688411111084782659927008936683584979603687325395173194975041073045811184864068781446087172594997851226652074987283756025595707004935371694049282331257036412087451431706000507265956339475686111173895108747244386780761853082610722831231437218013741132937762555427714599612822579918208786258223366933050142100003285523813436819457849164479967027509406354583347478519170214592125162467628821244837990318131302024640950831328134727431863311284356657315475543765398202933914800454353523075100634546688222037220036910263592959296673584242964098337691879173678649943820072775948691314923013937850487686741234288276348840543617588759169373158076051820969801590402509981409229380466274307002398925712271422509527060707654037130524074577913735394230165374269334361522205275705440459681848315399574499056591825940636505888172784512127493293222885108522168348714179316132657260760606797680582078411705522559005166964195785992671463039715086788709653929013622580946888157840928275691980990384799284485588162547833759408669757436367572809186530149639498358076766685793186905768316486671237266164471609692362256551220498725823568554112844131357721799483789084131055431009684104393325234577031993090534131082558981696251865959739608692501995311835829296270759787831187159705932048794061144025240719318777118289419941520564736074849399013996343501772507086829472788588691662544469895637749039798947497751588990620334197621904724464871463833250075004950473786393102585132399422426247982689829910665830119655915808728757421761245885181272876244974343406725573019365908800364743753233744703128839618763875195072115569135327458040633250604844927546995793313535232142818446904358250029300461853289250556452229630745763493859728048789911924668620178904328072193306485617164712583124332557011559327836449856862980900398917011530233568871174321575982553965216803441103385439327168373882609418278086120535425401978632292176813703045683458518699045715341376952679080283725693329952612145733117887303630122522514750858154870567822032476249611075217623256493658372705654014939151629142662385177232818137064505005918998323384136765457126360886296659893136351670375136886350608194150307899623467874210133666474998866898050624874604654171079709500114037624233776160855039739901513398115878362981313458541851268458699210393695786298781902959545625592931648701928647442065633818021313697691101521867333809381961393578107518498484424362745089479254913788614302306303521681848995307179826122575430087190675074950315989893999028893730075566841299168987336582003211919011216081355747106368323920658649514099247278916000637155754846477413406919301982001352043749744726097022891358758777438923856322568315710843838047772382677698546940577413266237013153480075080336631732563247478726818428074883494680496725154698337609633129715523259940429449818238894714685618941801555882652456081928633933521976653117663561738347025713856681366847317824117973210893611916667742742404754756721951803512126266860768880936917302868503873764697316597139172698469122628568013315868644811527826644729254264798948003045552317347506647618323732701277097067205253183922414298728956684776167290051081380041415352400804807314420295658124256880469651709637869451905420499316245326967742777632390017239375706999728249636461975490972781844122928655535838862749452932551811700921176148025052619054078741634819390229415172433836546490824790142369741398880178299224457450279788330243169691959655349112274124672114679764158217602429059146316192814552057170507296002341132114537661186925206501888058676030756927122904907999656653233185205975944378067296845387843773711137191008812254692972266559003233890926238199745478997093011640230889501185260758206251736396356576319691403650696290524280489418044283036719759705346659120030603373661745625974532250915824424724261471164997934989672790486105399369985740961254618312287735530470861501149601699604090971710682703984316503418710340582839677043331725213295194738381756892911521096840075398865888349149859226609235245210917261538340636155639346245453656164699091448087741345352183851132269488374181608592646072378979639763881230124307751488179925161926945761440255069072959481489808616563800435179891169387910301568715688300949787615071699274286599882112552195873568923915501059810264903698627126523398816376894777840802889358415896387402334715878058327748697147348355460079610825495154703047880934044668322777707060865956416898996347771634640782580742714656068482345085057662590415989204495067885650021755456989923045754281114917683904882973215907119329104810678616082858315220977985372658846460338234615720827395913720815942367890769049092067904443176916214274647603852692228444828073133296942167660801055472272222196517295085058741330858665800200137446658649749675451702965638956169117092295785157341165669161691687840147337151577042047887798793378040984360542767569662530561910487700461320686311272744986059060335419449019588356683446217014868685196850442323837882981680533031212202516119182793569677366941559132257268387125212050571121458125381400381843580003868275184608246327680607109016899812397794019092492340140776460543059723197874756205933163543301081204424235706658103597404629183243982886913727813705374906929094278411426063257725258564740706977064610463152903065318165559564351089742717909635938329541492375748761734722266242239121647679092114999911555385105870848579523527634876885026190644710059734185621016103713988380335782718119325728893682381599115205168016244271947986281854306837736496838284751119854401284796621705596091415725194038849951293785295803000268361174171368843554560799541318325134722902017132463162686686298593588810924383161423390308845241367034131884356890453576497693966343580520747130882477030617291517171750040613174759024618620972399314321038669975683249948334200829201476883987357778037959801288395515839646684249614683446261655209866134883245206233527779649747039809761880840234392559254256894667692736714680530118885248546152985184364014640653776001106414868299560678930165614449416956200404471834456461289067783259859337431266198219284358239647746220657659792509074172388129976145576004493318638710180326404079448511352802870368646382159036188081985519273397632360945336711877398042577440571526393260316908769671409414429519159336774401685004658766181515207974328581224778795330287039146076946790295622161551251156380035836837294175901236308855667894903183657892812436021567380216597773496554717586598505120665489561124975472979069170207266154592618745745486926118726789190338826718301520641241755270584438521642924105056801575226935331389402305259519702711066901245527621893293461409220286408680615037684839605905555700606586623269483381093550533972990546296141234823967397915034260127867357333245163864591511472553365475884288552027934544751390939716598129467519305715044389600479662282301234090204052457239977025692343979653229301480195808403036801937461289944470965324612991991065256977923688614719292177070383979331445587694068555453551849064145646823225104832756098897664206174882556482969601663519503846634265216906454436858225233587295122109150484033220325103823552880375393661465389680772626017508140673448700970009860667147163846122773229325600058321878588398859210107118451312804710065759165850683883381754994724334208859620463847279485243874040756143840534341811933438521080957657569827598155818555340823547515158910353817764104531338852974223280733860702795478748736412981605096820849208860744201701593776411174056502753049827575981263657229338893647204832924900731355021734625089398194335134563602343645528247145660739913372269091910941985679715750965425524208542193499401006030575785769099872968545068035171508350920047828978225238472495089158159433818828752050912277785605278401246467457409549519492418664935965129820561100220159618848436797421428940968896174079445711895490278759949757999423522028271632541107078175613872851254867580510301452526566038254085330943917755765542534579224587291178754147756327599511760824561992890054284067659923412498081184458576183148256341031200345322320843349969372352190378063956474291786827289070914107143313231967127162237754542795513577103235967707255781622285486188672887993698353944513086187265307543015217519819227732717933100118496616264646653547024661304599627521043195874789482748772940292973668029480241268819619407207561572490055329751580002137301383155417619024948784091272934469682231461706739404594526687578464524088267985620079407345434624

/-- Packed literal of the stored (biased) `count` map after construction. -/
def countLit : Nat :=
  5846586271264051916460642332366824651328157422999832703482509452222609003060632129047278791872827716654884643000037151075139016054698228741558571992862109390884700697032719516019099110893499842187184598144224822182902514695274162394187342306582301061341315925095145990569840555218996734094305135059231651284153927118902310185508497620830601379823274501135804673032150400815090267980748636600515770749983280837338712295784018526573556232661931786210273621628091743131772328750011456791287831526048833446113933123186767480555615704707020817233954597528237966806424499974052898474621219787001282741283614587456431881403418724231737016814842902353251901097080305541780479169303179081553903689692404939183551361427335221884822153623923138655176522250073101242266811405775150028024019325672269192809638627888074460373390753753623683204186407830779422435700165808509910133146037811513667389548564101445405777469192400663379504284922644847667755770149335519645288367725466858408358508693197211121024208733014678895233278931343729853110979774735475616852925777464714228656269987777701525461655041542841791762576256943661281942330967358891876327878742960475419959442807939849838131052813749191156451853763804395378548028867289204448886866448039626692772095786433187075176182427390349155224266410331680885873303835194601589586901075817501141495047978331399959413857445662751135578538361248629598986750461988012796840032467453341835089690951516092601140876261721688182376537919849066926143933974204684882586555482946745463154431896921931453278838245877572802384810993937192268018561247256294285382777573704189270914290263751618946669503208429589933561853989778399443249913707123606550352498418756690965629587708076303473093022418319316756561072283157012424654335581506306064847020608169980104072565888223736020936613111861871530328433369921784588348273896094423420433668148765772985884036876848614379613497044063678073849960316044158096815767231067214114844445619903654841944855244712515181375922125724482926893571310602373659054416880068432536381293425415886415019432213889423119610737761620954659344527958891469116577243778986851959235066620030761976590992413786653197827850814765524128850548844059880590358094882585665840475351254406934175886154029582642652700921962387858045121572796614977891489781342846046858969674115867174664804653752062177515662957837622156240931393070267627926338600484635260516292371391300411926908564339108413702190055404898665914139590488621222539845217645979314612135419339928066203594859677298555649321171780356241229220367506326025987389506342664885713289770497940769012976385852344958574181982207862809552878034272001256096513004339463087548799286855611512820775113799898918146697118576644417402169829967629382600761140533594032939479802554891226830094268895054070729241146386051967528166169294700174685555899343023347428124681145899012839120883968231145577400092086111545137747768628144898308016191948757786369677709865824945491431342105068930499292188497998350295066744527992679316740019861394180970680962428874696484837534359611266687097357609348823092732147720578257266830769029070353331490620800677273477320398522366409054191666829280945045314368509209610677437250025810540207478571398557999122527621835307727965626444005142149919879157498811231262097213862082956308458911834776831922714456595217681271543544335631473543622780177407747635563385731667770322590835880545093963927259222597952317632492714359352197762374844212781198638736055600595274090364686932840043434280538629126857059982530872367321793837403561870760216327945279359285082455073204789437045870610883927820599846514831407622171202442706064358097091920566756766592046709692253778725015913962910088409023564121945183855299775775598221588708824769671913412266539796159815783611907766590644896300116858548433170000149148163803794289289287739090286948020381104619094066654646571963842657062182921119062859683143991968764925418487197149511982177420024993840313193263729688599275411310658965220053360230102467458563073094770788880039698686294833215204175358754936336271448860181519473137711473921413044588112674488434661219856563265309057512477611880668310860129489118471247086513235300976661616060341200956627580248555147594437257667816193254221709170941212048875335165259611225597596884188551573169036299094739054933192652835378971466565179506314061515809296806472695952412686160851473557725809879048588498388124548678244438583721181915601383081677908869402878966006266930322275116057787251102067889427948298888796039483216831269890517529148133757163482466945941792552037527624027856358519933374780906273647567272865733446030405214055347308287474157741024322897247498734545266023638339606763619844392906391561

/-- The constructed state, as packed literal numbers (the closed forms
above describe these digit by digit; see `initLit_closed`). -/
def initLit : DL where
  up := upLit
  down := downLit
  left := leftLit
  right := rightLit
  col := colLit
  row := rowLit
  count := countLit

/-! ## cover and uncover (namespace dl of Sudoku.cpp)

Both column unlinking (`cell->right->left = cell->left; cell->left->right
= cell->right`) and cell unlinking (`j->down->up = j->up; j->up->down =
j->down`) are the same two statements over a (next, prev) pair of pointer
maps — (right, left) for the header row, (down, up) for a column ring —
so they share one generic definition, and likewise for relinking. -/

/-- Generic unlink of `x` from the ring of the pointer-map pair
`(n, v)` (next, prev): `x->n->v = x->v; x->v->n = x->n`, reads performed
sequentially on the updated maps exactly as in the source. -/
def gUnlink (n v x : Nat) : Nat × Nat :=
  let v1 := setD v (getD n x) (getD v x)
  let n1 := setD n (getD v1 x) (getD n x)
  (n1, v1)

/-- Generic relink of `x` into the ring of `(n, v)`:
`x->n->v = x; x->v->n = x`. -/
def gRelink (n v x : Nat) : Nat × Nat :=
  let v1 := setD v (getD n x) x
  let n1 := setD n (getD v1 x) x
  (n1, v1)

/-- Body of the inner loop of `dl::cover`: unlink cell `j` from its
column's vertical ring and decrement that column's count. -/
def unlinkCell (s : DL) (j : Nat) : DL :=
  let p := gUnlink s.down s.up j
  let s1 := { s with down := p.1, up := p.2 }
  { s1 with count := setC s1.count (cOf s1 j) (getC s1.count (cOf s1 j) - 1) }

/-- Body of the inner loop of `dl::uncover`: increment the column's count
and relink cell `j` into its column's vertical ring. -/
def relinkCell (s : DL) (j : Nat) : DL :=
  let s1 := { s with count := setC s.count (cOf s j) (getC s.count (cOf s j) + 1) }
  let p := gRelink s1.down s1.up j
  { s1 with down := p.1, up := p.2 }

/-- Fuel bound used for every pointer-chasing loop; far larger than any
ring in the 3241-node matrix, so it never cuts a well-formed traversal
short. -/
def ringFuel : Nat := 4096

/-- Inner loop of `dl::cover`: `for (j = i->right; j != i; j = j->right)`
unlinking each `j`.  (All fuel recursions are spelled with `Nat.rec` so
that they unfold lazily, step by step, under kernel reduction.) -/
def coverRowLoop (fuel : Nat) : DL → Nat → Nat → DL :=
  Nat.rec (motive := fun _ => DL → Nat → Nat → DL)
    (fun s _ _ => s)
    (fun _ ih s i j =>
      if j = i then s
      else
        let s' := unlinkCell s j
        ih s' i (rOf s' j))
    fuel

/-- Outer loop of `dl::cover`: `for (i = cell->down; i != cell; i = i->down)`. -/
def coverColLoop (fuel : Nat) : DL → Nat → Nat → DL :=
  Nat.rec (motive := fun _ => DL → Nat → Nat → DL)
    (fun s _ _ => s)
    (fun _ ih s c i =>
      if i = c then s
      else
        let s' := coverRowLoop ringFuel s i (rOf s i)
        ih s' c (dOf s' i))
    fuel

/-- `dl::cover`: unlink the column header from the header row, then unlink
every row crossing the column. -/
def cover (s : DL) (c : Nat) : DL :=
  let p := gUnlink s.right s.left c
  let s1 := { s with right := p.1, left := p.2 }
  coverColLoop ringFuel s1 c (dOf s1 c)

/-- Inner loop of `dl::uncover`: `for (j = i->left; j != i; j = j->left)`
relinking each `j`. -/
def uncoverRowLoop (fuel : Nat) : DL → Nat → Nat → DL :=
  Nat.rec (motive := fun _ => DL → Nat → Nat → DL)
    (fun s _ _ => s)
    (fun _ ih s i j =>
      if j = i then s
      else
        let s' := relinkCell s j
        ih s' i (lOf s' j))
    fuel

/-- Outer loop of `dl::uncover`: `for (i = cell->up; i != cell; i = i->up)`. -/
def uncoverColLoop (fuel : Nat) : DL → Nat → Nat → DL :=
  Nat.rec (motive := fun _ => DL → Nat → Nat → DL)
    (fun s _ _ => s)
    (fun _ ih s c i =>
      if i = c then s
      else
        let s' := uncoverRowLoop ringFuel s i (lOf s i)
        ih s' c (uOf s' i))
    fuel

/-- `dl::uncover`: relink every row crossing the column, bottom-up and
right-to-left (the mirror order of `cover`), then relink the header. -/
def uncover (s : DL) (c : Nat) : DL :=
  let s1 := uncoverColLoop ringFuel s c (uOf s c)
  let p := gRelink s1.right s1.left c
  { s1 with right := p.1, left := p.2 }

/-! ## The search engine (Sudoku::search, Sudoku::loadGridAndSolve) -/

/-- The column-selection scan of `Sudoku::search`: starting from
`c = root->right`, walk the header ring and keep the first column whose
count is strictly smaller than the current best. -/
def chooseLoop (fuel : Nat) : DL → Nat → Nat → Nat :=
  Nat.rec (motive := fun _ => DL → Nat → Nat → Nat)
    (fun _ _ c => c)
    (fun _ ih s cand c =>
      if cand = rootIx then c
      else
        let c' := if cntOf s (cOf s cand) < cntOf s (cOf s c) then cand else c
        ih s (rOf s cand) c')
    fuel

/-- The chosen column node of `Sudoku::search` at state `s`. -/
def chooseCol (s : DL) : Nat := chooseLoop ringFuel s (rOf s rootIx) (rOf s rootIx)

/-- Search state: the matrix, the `solution` array (also a packed map),
the sequence of solutions handed to `printSolution` so far, and a flag
recording whether the model's fuel ever ran out (it never does on
well-formed runs). -/
structure SState where
  m : DL
  sol : Nat
  reports : List (List Nat)
  fuelOut : Bool
deriving DecidableEq

/-- The first `grid_size` entries of the `solution` array — what
`printSolution` reads. -/
def snapshot (sol : Nat) : List Nat := (List.range gridSize).map (getD sol)

/-- The loop `for (j = r->right; j != r; j = j->right) cover(j->col)`. -/
def coverRight (fuel : Nat) : DL → Nat → Nat → DL :=
  Nat.rec (motive := fun _ => DL → Nat → Nat → DL)
    (fun s _ _ => s)
    (fun _ ih s r j =>
      if j = r then s
      else
        let s' := cover s (cOf s j)
        ih s' r (rOf s' j))
    fuel

/-- The loop `for (j = r->left; j != r; j = j->left) uncover(j->col)`. -/
def uncoverLeft (fuel : Nat) : DL → Nat → Nat → DL :=
  Nat.rec (motive := fun _ => DL → Nat → Nat → DL)
    (fun s _ _ => s)
    (fun _ ih s r j =>
      if j = r then s
      else
        let s' := uncover s (cOf s j)
        ih s' r (lOf s' j))
    fuel

/-- One fuel level of the mutually recursive pair
(`Sudoku::search`, its row loop), given the pair for the next-smaller
fuel: component 1 is `search(k)` itself, component 2 the loop
`for (r = c->down; r != c; r = r->down)` with its backtracking body. -/
def searchStep
    (ih : (Nat → SState → SState) × (Nat → SState → Nat → Nat → SState)) :
    (Nat → SState → SState) × (Nat → SState → Nat → Nat → SState) :=
  ⟨fun k st =>
    if rOf st.m rootIx = rootIx then
      { st with reports := st.reports ++ [snapshot st.sol] }
    else
      let cn := chooseCol st.m
      let m1 := cover st.m (cOf st.m cn)
      ih.2 k { st with m := m1 } cn (dOf m1 cn),
   fun k st c r =>
    if r = c then { st with m := uncover st.m (cOf st.m c) }
    else
      let st1 := { st with sol := setD st.sol k (rowIdOf st.m r) }
      let m2 := coverRight ringFuel st1.m r (rOf st1.m r)
      let st2 := ih.1 (k + 1) { st1 with m := m2 }
      let m3 := uncoverLeft ringFuel st2.m r (lOf st2.m r)
      ih.2 k { st2 with m := m3 } c (dOf m3 r)⟩

/-- The pair (`Sudoku::search`, its row loop) at each fuel level. -/
def searchAux (fuel : Nat) :
    (Nat → SState → SState) × (Nat → SState → Nat → Nat → SState) :=
  Nat.rec (motive := fun _ => (Nat → SState → SState) × (Nat → SState → Nat → Nat → SState))
    (⟨fun _ st => { st with fuelOut := true }, fun _ st _ _ => { st with fuelOut := true }⟩)
    (fun _ ih => searchStep ih)
    fuel

/-- `Sudoku::search(k)`.  On `root->right == root` it hands the first 81
solution entries to the printer and returns; otherwise it picks the
minimum-count column, covers it, and tries each of its rows, recording
`r->row` at depth `k`, covering the row's other columns, recursing, and
uncovering them in mirror order; after the last row it uncovers the
chosen column and returns. -/
def searchF (fuel k : Nat) (st : SState) : SState := (searchAux fuel).1 k st

/-- The row loop of `Sudoku::search` (see `searchStep`). -/
def searchRows (fuel k : Nat) (st : SState) (c r : Nat) : SState :=
  (searchAux fuel).2 k st c r

/-- Value of `grid[i][j]` for a grid given as nested lists (out-of-range
reads default to 0; the input contract is a 9×9 grid). -/
def gridAt (g : List (List Int)) (i j : Nat) : Int := (g.getD i []).getD j 0

/-- Body of the clue loop of `Sudoku::loadGridAndSolve` at cell `(i,j)`:
if the cell is non-empty, compute `grid_row`, cover the columns of all
four of its cells, and record it in `solution[z]`. -/
def loadStep (g : List (List Int)) (p : DL × Nat × Nat) (i j : Nat) : DL × Nat × Nat :=
  let v := gridAt g i j
  if v ≠ 0 then
    let gr := (81 * (i : Int) + 9 * (j : Int) + v - 1).toNat
    let m' := (List.range cellsPerRow).foldl (fun t k => cover t (cOf t (cellNode gr k))) p.1
    (m', setD p.2.1 p.2.2 gr, p.2.2 + 1)
  else p

/-- Fuel given to the model's `search`; large enough for every path of a
well-formed run (whose call chains are bounded by ~12 per depth level). -/
def searchFuel : Nat := 4096

/-- `Sudoku::loadGridAndSolve`: pre-cover the clue rows in row-major
order, then run `search(z)` on the resulting state. -/
def loadGridAndSolve (g : List (List Int)) : SState :=
  let p := (List.range 9).foldl
    (fun q i => (List.range 9).foldl (fun q' j => loadStep g q' i j) q)
    (initState, 0, 0)
  searchF searchFuel p.2.2 { m := p.1, sol := p.2.1, reports := [], fuelOut := false }

/-! ## Construction segments

Zero-argument names for 81-row blocks of the construction; used by
`initState_eq_lit` to force the construction in the kernel in nine steps
of bounded reduction depth. -/

/-- Rows `a .. a+n-1` of the row-construction loop, applied to `s`. -/
def initSeg (s : DL) (a n : Nat) : DL :=
  (List.range' a n).foldl (fun t r => insertRow t r (constraintQuad r)) s

def iS1 : DL := initSeg initColumns 0 81

def iS2 : DL := initSeg iS1 81 81

def iS3 : DL := initSeg iS2 162 81

def iS4 : DL := initSeg iS3 243 81

def iS5 : DL := initSeg iS4 324 81

def iS6 : DL := initSeg iS5 405 81

def iS7 : DL := initSeg iS6 486 81

def iS8 : DL := initSeg iS7 567 81

def iS9 : DL := initSeg iS8 648 81

theorem initSeg_add (s : DL) (a n₁ n₂ : Nat) :
    initSeg (initSeg s a n₁) (a + n₁) n₂ = initSeg s a (n₁ + n₂) := by
  unfold initSeg
  rw [← List.foldl_append, List.range'_append_1, Nat.add_comm n₂ n₁]

theorem iS9_eq : iS9 = initSeg initColumns 0 729 := by
  show initSeg (initSeg (initSeg (initSeg (initSeg (initSeg (initSeg (initSeg
    (initSeg initColumns 0 81) 81 81) 162 81) 243 81) 324 81) 405 81) 486 81) 567 81) 648 81 = _
  have h2 := initSeg_add initColumns 0 81 81
  norm_num at h2
  rw [h2]
  have h3 := initSeg_add initColumns 0 162 81
  norm_num at h3
  rw [h3]
  have h4 := initSeg_add initColumns 0 243 81
  norm_num at h4
  rw [h4]
  have h5 := initSeg_add initColumns 0 324 81
  norm_num at h5
  rw [h5]
  have h6 := initSeg_add initColumns 0 405 81
  norm_num at h6
  rw [h6]
  have h7 := initSeg_add initColumns 0 486 81
  norm_num at h7
  rw [h7]
  have h8 := initSeg_add initColumns 0 567 81
  norm_num at h8
  rw [h8]
  have h9 := initSeg_add initColumns 0 648 81
  norm_num at h9
  rw [h9]

theorem initState_eq_seg : initState = iS9 := by
  rw [iS9_eq]
  show (List.range rowSize).foldl _ initColumns = _
  rw [show rowSize = 729 from rfl, List.range_eq_range']
  rfl

set_option maxRecDepth 100000 in
set_option maxHeartbeats 1000000 in
theorem initState_eq_lit : initState = initLit := by
  rw [initState_eq_seg]
  have h : (iS1 = iS1 ∧ iS2 = iS2 ∧ iS3 = iS3 ∧ iS4 = iS4 ∧ iS5 = iS5 ∧ iS6 = iS6
      ∧ iS7 = iS7 ∧ iS8 = iS8) ∧ iS9 = initLit := by decide!
  exact h.2

/-! ## A concrete input with two completions

`gridTwoSol` is a 9×9 grid with 77 clues; its four empty cells admit
exactly two valid completions (the digits 2 and 4 can be placed in the
rectangle (0,2),(0,3),(1,2),(1,3) in either diagonal arrangement).  The
`lq*` names below are the states after each grid row of clue loading,
used to force the run in the kernel with bounded reduction depth. -/

def gridTwoSol : List (List Int) :=
  [[5, 7, 0, 0, 8, 9, 1, 3, 6],
   [6, 8, 0, 0, 1, 3, 9, 5, 7],
   [9, 1, 3, 5, 6, 7, 4, 8, 2],
   [2, 6, 9, 1, 5, 8, 3, 7, 4],
   [7, 4, 1, 9, 3, 6, 8, 2, 5],
   [3, 5, 8, 7, 2, 4, 6, 1, 9],
   [1, 9, 7, 3, 4, 5, 2, 6, 8],
   [8, 3, 5, 6, 9, 2, 7, 4, 1],
   [4, 2, 6, 8, 7, 1, 5, 9, 3]]

/-- One grid row of the clue loop of `loadGridAndSolve`. -/
def loadRow (g : List (List Int)) (q : DL × Nat × Nat) (i : Nat) : DL × Nat × Nat :=
  (List.range 9).foldl (fun q' j => loadStep g q' i j) q

def lq0 : DL × Nat × Nat := loadRow gridTwoSol (initLit, 0, 0) 0

def lq1 : DL × Nat × Nat := loadRow gridTwoSol lq0 1

def lq2 : DL × Nat × Nat := loadRow gridTwoSol lq1 2

def lq3 : DL × Nat × Nat := loadRow gridTwoSol lq2 3

def lq4 : DL × Nat × Nat := loadRow gridTwoSol lq3 4

def lq5 : DL × Nat × Nat := loadRow gridTwoSol lq4 5

def lq6 : DL × Nat × Nat := loadRow gridTwoSol lq5 6

def lq7 : DL × Nat × Nat := loadRow gridTwoSol lq6 7

def lq8 : DL × Nat × Nat := loadRow gridTwoSol lq7 8

/-- The run of `search` on `gridTwoSol`, from the loaded literal state. -/
def twoSolRun : SState :=
  searchF searchFuel lq8.2.2 { m := lq8.1, sol := lq8.2.1, reports := [], fuelOut := false }

theorem loadGridAndSolve_twoSol : loadGridAndSolve gridTwoSol = twoSolRun := by
  unfold twoSolRun lq8 lq7 lq6 lq5 lq4 lq3 lq2 lq1 lq0 loadRow loadGridAndSolve
  rw [initState_eq_lit]
  rfl

set_option maxRecDepth 100000 in
set_option maxHeartbeats 1000000 in
/-- C2 (counterexample): the claim asserts that after the first solution
is reported the whole search terminates and no second solution is ever
reported, for every input grid.  This is false: on the 77-clue grid
`gridTwoSol` (a well-formed input with two completions) the program
reports two solutions — `search` has no termination flag, so after the
recursive call that printed the first solution returns, the enclosing row
loops keep trying rows and find the second one. -/
theorem c2_counterexample : (loadGridAndSolve gridTwoSol).reports.length = 2 := by
  rw [loadGridAndSolve_twoSol]
  have h : (lq0 = lq0 ∧ lq1 = lq1 ∧ lq2 = lq2 ∧ lq3 = lq3 ∧ lq4 = lq4 ∧ lq5 = lq5
      ∧ lq6 = lq6 ∧ lq7 = lq7 ∧ lq8 = lq8) ∧ twoSolRun.reports.length = 2 := by decide!
  exact h.2

/-- Unfolding equation of `search` at positive fuel: the success test, the
column choice and the hand-off to the row loop. -/
theorem searchF_succ (fuel k : Nat) (st : SState) :
    searchF (fuel + 1) k st =
      if rOf st.m rootIx = rootIx then
        { st with reports := st.reports ++ [snapshot st.sol] }
      else
        let cn := chooseCol st.m
        let m1 := cover st.m (cOf st.m cn)
        searchRows fuel k { st with m := m1 } cn (dOf m1 cn) := rfl

/-- Unfolding equation of the row loop of `search` at positive fuel. -/
theorem searchRows_succ (fuel k : Nat) (st : SState) (c r : Nat) :
    searchRows (fuel + 1) k st c r =
      if r = c then { st with m := uncover st.m (cOf st.m c) }
      else
        let st1 := { st with sol := setD st.sol k (rowIdOf st.m r) }
        let m2 := coverRight ringFuel st1.m r (rOf st1.m r)
        let st2 := searchF fuel (k + 1) { st1 with m := m2 }
        let m3 := uncoverLeft ringFuel st2.m r (lOf st2.m r)
        searchRows fuel k { st2 with m := m3 } c (dOf m3 r) := rfl

/-- C2 (amended): when `search` reaches a state with `root->right == root`
it appends the first 81 entries of the solution trace to the reported
solutions and returns from that invocation without trying any rows there;
but the search as a whole does not stop — control returns to the enclosing
row loops, which continue, so further solutions can be reported for grids
with several completions (see `c2_counterexample`). -/
theorem c2_success_reports_and_returns (fuel k : Nat) (st : SState)
    (h : rOf st.m rootIx = rootIx) :
    searchF (fuel + 1) k st = { st with reports := st.reports ++ [snapshot st.sol] } := by
  rw [searchF_succ, if_pos h]

/-! ## Pointer-chain theory

`Walk f p l q` says: starting from node `p`, repeatedly following the
pointer map `f` visits exactly the nodes of `l` and then reaches `q`
(`f p = l₀`, `f l₀ = l₁`, …, `f lₙ = q`).  The `for (x = f(start); x !=
stop; x = f(x))` loops of the source visit `l` precisely when
`Walk f start l stop` holds and no element of `l` equals `stop`. -/

def Walk (f : Nat → Nat) : Nat → List Nat → Nat → Prop
  | p, [], q => f p = q
  | p, a :: t, q => f p = a ∧ Walk f a t q

theorem walk_congr {f f' : Nat → Nat} :
    ∀ (l : List Nat) (p q : Nat), Walk f p l q → (∀ y, y = p ∨ y ∈ l → f' y = f y) →
      Walk f' p l q := by
  intro l
  induction l with
  | nil =>
      intro p q h hf
      exact (hf p (Or.inl rfl)).trans h
  | cons a t ih =>
      intro p q h hf
      exact ⟨(hf p (Or.inl rfl)).trans h.1,
        ih a q h.2 (fun y hy => hf y (Or.inr (by rcases hy with h' | h' <;> simp [h'])))⟩

theorem walk_append {f : Nat → Nat} :
    ∀ (l₁ l₂ : List Nat) (p a q : Nat),
      Walk f p (l₁ ++ a :: l₂) q ↔ Walk f p l₁ a ∧ Walk f a l₂ q := by
  intro l₁
  induction l₁ with
  | nil =>
      intro l₂ p a q
      exact Iff.rfl
  | cons b t ih =>
      intro l₂ p a q
      constructor
      · intro h
        obtain ⟨h1, h2⟩ := h
        obtain ⟨h3, h4⟩ := (ih l₂ b a q).mp h2
        exact ⟨⟨h1, h3⟩, h4⟩
      · intro h
        exact ⟨h.1.1, (ih l₂ b a q).mpr ⟨h.1.2, h.2⟩⟩

theorem walk_mem_pred {f : Nat → Nat} :
    ∀ (l : List Nat) (p q x : Nat), Walk f p l q → x ∈ l →
      ∃ r, (r = p ∨ r ∈ l) ∧ f r = x := by
  intro l
  induction l with
  | nil => intro p q x _ hx; cases hx
  | cons a t ih =>
      intro p q x h hx
      rcases List.mem_cons.mp hx with rfl | hx
      · exact ⟨p, Or.inl rfl, h.1⟩
      · obtain ⟨r, hr, hfr⟩ := ih a q x h.2 hx
        refine ⟨r, Or.inr ?_, hfr⟩
        rcases hr with hr | hr
        · rw [hr]; exact List.mem_cons_self _ _
        · exact List.mem_cons_of_mem _ hr

theorem walk_reverse {f g : Nat → Nat} :
    ∀ (l : List Nat) (p q : Nat), Walk f p l q →
      (∀ y, y = p ∨ y ∈ l → g (f y) = y) → Walk g q l.reverse p := by
  intro l
  induction l with
  | nil =>
      intro p q h hg
      show g q = p
      rw [← h]
      exact hg p (Or.inl rfl)
  | cons a t ih =>
      intro p q h hg
      have h2 : Walk g q t.reverse a := ih a q h.2 (fun y hy => hg y (Or.inr (by
        rcases hy with h' | h' <;> simp [h'])))
      have h3 : g a = p := by
        rw [← h.1]
        exact hg p (Or.inl rfl)
      rw [List.reverse_cons, walk_append t.reverse [] q a p]
      exact ⟨h2, h3⟩

theorem walk_last_pred {f : Nat → Nat} :
    ∀ (l : List Nat) (p a q : Nat), Walk f p (l ++ [a]) q → f a = q := by
  intro l
  induction l with
  | nil => intro p a q h; exact h.2
  | cons b t ih => intro p a q h; exact ih b a q h.2

/-- Removing `x` from a walked list after redirecting its predecessor's
pointer: if `f' (pred) = f x` for the unique predecessor of `x` and `f'`
agrees with `f` on every other read node, the walk skips `x`.  The map `f`
must be injective on the read set so the predecessor is unique. -/
theorem walk_erase {f f' : Nat → Nat} :
    ∀ (l : List Nat) (p q x : Nat), Walk f p l q → x ∈ l →
      (p :: l).Nodup →
      (∀ y z, (y = p ∨ y ∈ l) → (z = p ∨ z ∈ l) → f y = f z → y = z) →
      (∀ y, (y = p ∨ y ∈ l) → f y = x → f' y = f x) →
      (∀ y, (y = p ∨ y ∈ l) → f y ≠ x → f' y = f y) →
      Walk f' p (l.erase x) q := by
  intro l
  induction l with
  | nil => intro p q x _ hx; cases hx
  | cons a t ih =>
      intro p q x h hx hnd hinj hredir hkeep
      by_cases hax : a = x
      · subst hax
        rw [List.erase_cons_head]
        have hfp : f' p = f a := hredir p (Or.inl rfl) h.1
        have hpnot : p ∉ a :: t := (List.nodup_cons.mp hnd).1
        -- no tail node is another predecessor of `a`: injectivity sends it to `p ∉ l`.
        have htail : ∀ y, y ∈ t → f' y = f y := by
          intro y hy
          refine hkeep y (Or.inr (List.mem_cons_of_mem a hy)) ?_
          intro hfy
          have : y = p := hinj y p (Or.inr (List.mem_cons_of_mem a hy)) (Or.inl rfl)
            (hfy.trans h.1.symm)
          exact hpnot (this ▸ List.mem_cons_of_mem a hy)
        rcases t with _ | ⟨b, t'⟩
        · show f' p = q
          rw [hfp]
          exact h.2
        · refine ⟨by rw [hfp]; exact h.2.1, ?_⟩
          exact walk_congr t' b q h.2.2 (fun y hy => htail y (by
            rcases hy with h' | h' <;> simp [h']))
      · have hxt : x ∈ t := by
          rcases List.mem_cons.mp hx with h' | h'
          · exact absurd h'.symm hax
          · exact h'
        have herase : (a :: t).erase x = a :: t.erase x := by
          rw [List.erase_cons]
          simp [fun h' : a = x => hax h']
        rw [herase]
        refine ⟨?_, ?_⟩
        · have hpx : f p ≠ x := by
            intro hpx
            obtain ⟨r, hr, hfr⟩ := walk_mem_pred t a q x h.2 hxt
            have hrmem : r ∈ a :: t := by
              rcases hr with hr | hr
              · rw [hr]; exact List.mem_cons_self _ _
              · exact List.mem_cons_of_mem _ hr
            have heq : p = r := hinj p r (Or.inl rfl) (Or.inr hrmem) (hpx.trans hfr.symm)
            exact (List.nodup_cons.mp hnd).1 (heq ▸ hrmem)
          rw [hkeep p (Or.inl rfl) hpx]
          exact h.1
        · exact ih a q x h.2 hxt (List.nodup_cons.mp hnd).2
            (fun y z hy hz => hinj y z
              (Or.inr (by rcases hy with h' | h' <;> simp [h']))
              (Or.inr (by rcases hz with h' | h' <;> simp [h'])))
            (fun y hy => hredir y (Or.inr (by rcases hy with h' | h' <;> simp [h'])))
            (fun y hy => hkeep y (Or.inr (by rcases hy with h' | h' <;> simp [h'])))

/-! ## Pointwise reads of writes -/

theorem getD_lt (m k : Nat) : getD m k < W :=
  digGet_lt W m k (by decide)

theorem getC_lt (m k : Nat) : getC m k < CW :=
  digGet_lt CW m k (by decide)

theorem getD_setD (m k k' v : Nat) (hv : v < W) :
    getD (setD m k v) k' = if k' = k then v else getD m k' := by
  by_cases h : k' = k
  · rw [if_pos h, h]
    exact digGet_digSet_same W m k v hv
  · rw [if_neg h]
    exact digGet_digSet_ne W m k k' v hv h

theorem getC_setC (m k k' v : Nat) (hv : v < CW) :
    getC (setC m k v) k' = if k' = k then v else getC m k' := by
  by_cases h : k' = k
  · rw [if_pos h, h]
    exact digGet_digSet_same CW m k v hv
  · rw [if_neg h]
    exact digGet_digSet_ne CW m k k' v hv h

theorem setD_setD (m k v w : Nat) (hv : v < W) :
    setD (setD m k v) k w = setD m k w :=
  digSet_digSet_same W m k v w hv

theorem setD_getD (m k : Nat) : setD m k (getD m k) = m :=
  digSet_digGet_self W m k

theorem setC_setC (m k v w : Nat) (hv : v < CW) :
    setC (setC m k v) k w = setC m k w :=
  digSet_digSet_same CW m k v w hv

theorem setC_getC (m k : Nat) : setC m k (getC m k) = m :=
  digSet_digGet_self CW m k

theorem DL.ext_fields {s t : DL} (h1 : s.up = t.up) (h2 : s.down = t.down)
    (h3 : s.left = t.left) (h4 : s.right = t.right) (h5 : s.col = t.col)
    (h6 : s.row = t.row) (h7 : s.count = t.count) : s = t := by
  cases s
  cases t
  simp_all

/-! ## Effect of a single unlink / relink on the node maps

`unlinkCell s j` rewrites exactly: `up` at key `down[j]`, `down` at key
`up[j]`, `count` at key `col[j]`; the `left`, `right`, `col`, `row` maps
are untouched.  These mirror `j->down->up = j->up; j->up->down = j->down;
j->col->count--` of `dl::cover`. -/

theorem unlinkCell_up (s : DL) (j : Nat) :
    (unlinkCell s j).up = setD s.up (dOf s j) (uOf s j) := rfl

theorem unlinkCell_down (s : DL) (j : Nat) :
    (unlinkCell s j).down = setD s.down (uOf s j) (dOf s j) := by
  show setD s.down (getD (setD s.up (getD s.down j) (getD s.up j)) j) (getD s.down j) =
    setD s.down (getD s.up j) (getD s.down j)
  rw [getD_setD _ _ _ _ (getD_lt _ _), ite_self]

theorem unlinkCell_count (s : DL) (j : Nat) :
    (unlinkCell s j).count = setC s.count (cOf s j) (getC s.count (cOf s j) - 1) := rfl

theorem unlinkCell_left (s : DL) (j : Nat) : (unlinkCell s j).left = s.left := rfl

theorem unlinkCell_right (s : DL) (j : Nat) : (unlinkCell s j).right = s.right := rfl

theorem unlinkCell_col (s : DL) (j : Nat) : (unlinkCell s j).col = s.col := rfl

theorem unlinkCell_rowm (s : DL) (j : Nat) : (unlinkCell s j).row = s.row := rfl

theorem relinkCell_up (s : DL) (j : Nat) :
    (relinkCell s j).up = setD s.up (dOf s j) j := rfl

theorem relinkCell_down (s : DL) (j : Nat) (hj : j < W) :
    (relinkCell s j).down = setD s.down (if j = dOf s j then j else uOf s j) j := by
  show setD s.down (getD (setD s.up (dOf s j) j) j) j = _
  rw [getD_setD _ _ _ _ hj]
  rfl

theorem relinkCell_count (s : DL) (j : Nat) :
    (relinkCell s j).count = setC s.count (cOf s j) (getC s.count (cOf s j) + 1) := rfl

theorem relinkCell_left (s : DL) (j : Nat) : (relinkCell s j).left = s.left := rfl

theorem relinkCell_right (s : DL) (j : Nat) : (relinkCell s j).right = s.right := rfl

theorem relinkCell_col (s : DL) (j : Nat) : (relinkCell s j).col = s.col := rfl

theorem relinkCell_rowm (s : DL) (j : Nat) : (relinkCell s j).row = s.row := rfl

/-- Pointwise `down`-read after an unlink. -/
theorem dOf_unlink (s : DL) (j₀ x : Nat) :
    dOf (unlinkCell s j₀) x = if x = uOf s j₀ then dOf s j₀ else dOf s x := by
  show getD (unlinkCell s j₀).down x = _
  rw [unlinkCell_down, getD_setD s.down (uOf s j₀) x (dOf s j₀) (getD_lt s.down j₀)]
  rfl

/-- Pointwise `up`-read after an unlink. -/
theorem uOf_unlink (s : DL) (j₀ x : Nat) :
    uOf (unlinkCell s j₀) x = if x = dOf s j₀ then uOf s j₀ else uOf s x := by
  show getD (unlinkCell s j₀).up x = _
  rw [unlinkCell_up, getD_setD s.up (dOf s j₀) x (uOf s j₀) (getD_lt s.up j₀)]
  rfl

theorem cOf_unlink (s : DL) (j₀ x : Nat) : cOf (unlinkCell s j₀) x = cOf s x := rfl

/-- Pointwise biased-count read after an unlink. -/
theorem getC_unlink (s : DL) (j₀ x : Nat) :
    getC (unlinkCell s j₀).count x =
      if x = cOf s j₀ then getC s.count (cOf s j₀) - 1 else getC s.count x := by
  rw [unlinkCell_count, getC_setC _ _ _ _ (by
    have := getC_lt s.count (cOf s j₀)
    omega)]

/-- Unlink keeps every node's toroidal property except possibly the
unlinked node itself: the two writes bridge over `j₀` consistently. -/
theorem toroidal_unlink (s : DL) (j₀ j : Nat)
    (ht0 : uOf s (dOf s j₀) = j₀ ∧ dOf s (uOf s j₀) = j₀)
    (ht : uOf s (dOf s j) = j ∧ dOf s (uOf s j) = j)
    (hne : j ≠ j₀) :
    uOf (unlinkCell s j₀) (dOf (unlinkCell s j₀) j) = j ∧
    dOf (unlinkCell s j₀) (uOf (unlinkCell s j₀) j) = j := by
  constructor
  · rw [dOf_unlink]
    by_cases h1 : j = uOf s j₀
    · rw [if_pos h1, uOf_unlink, if_pos rfl, h1]
    · rw [if_neg h1, uOf_unlink]
      by_cases h2 : dOf s j = dOf s j₀
      · exact absurd (by rw [← ht.1, h2, ht0.1]) hne
      · rw [if_neg h2, ht.1]
  · rw [uOf_unlink]
    by_cases h1 : j = dOf s j₀
    · rw [if_pos h1, dOf_unlink, if_pos rfl, h1]
    · rw [if_neg h1, dOf_unlink]
      by_cases h2 : uOf s j = uOf s j₀
      · exact absurd (by rw [← ht.2, h2, ht0.2]) hne
      · rw [if_neg h2, ht.2]

/-- Relinking a just-unlinked node restores the state exactly, provided
the node was toroidally linked (`j->down->up == j && j->up->down == j`)
and its column's stored count is positive (true of the biased encoding
whenever the modelled `int32_t` count is above `-2^47`). -/
theorem relink_unlink (s : DL) (j : Nat) (hj : j < W)
    (h1 : uOf s (dOf s j) = j) (h2 : dOf s (uOf s j) = j)
    (hc : 1 ≤ getC s.count (cOf s j)) :
    relinkCell (unlinkCell s j) j = s := by
  have hdt : dOf (unlinkCell s j) j = dOf s j := by
    rw [dOf_unlink]
    exact ite_self _
  have hut : uOf (unlinkCell s j) j = uOf s j := by
    rw [uOf_unlink]
    exact ite_self _
  have hct : cOf (unlinkCell s j) j = cOf s j := rfl
  refine DL.ext_fields ?_ ?_ ?_ ?_ ?_ ?_ ?_
  · rw [relinkCell_up, hdt, unlinkCell_up,
      setD_setD s.up (dOf s j) (uOf s j) j (getD_lt s.up j)]
    nth_rewrite 2 [← h1]
    exact setD_getD s.up (dOf s j)
  · rw [relinkCell_down _ _ hj, hdt, hut, unlinkCell_down]
    by_cases h : j = dOf s j
    · rw [if_pos h]
      have hu : uOf s j = j := by
        nth_rewrite 1 [h]
        exact h1
      rw [hu]
      rw [show setD s.down j (dOf s j) = s.down from setD_getD s.down j]
      nth_rewrite 2 [h]
      exact setD_getD s.down j
    · rw [if_neg h, setD_setD s.down (uOf s j) (dOf s j) j (getD_lt s.down j)]
      nth_rewrite 2 [← h2]
      exact setD_getD s.down (uOf s j)
  · rw [relinkCell_left, unlinkCell_left]
  · rw [relinkCell_right, unlinkCell_right]
  · rw [relinkCell_col, unlinkCell_col]
  · rw [relinkCell_rowm, unlinkCell_rowm]
  · rw [relinkCell_count, hct, unlinkCell_count]
    have hlt : getC s.count (cOf s j) - 1 < CW := by
      have := getC_lt s.count (cOf s j)
      omega
    rw [show getC (setC s.count (cOf s j) (getC s.count (cOf s j) - 1)) (cOf s j) =
        getC s.count (cOf s j) - 1 by rw [getC_setC _ _ _ _ hlt, if_pos rfl]]
    rw [setC_setC _ _ _ _ hlt, show getC s.count (cOf s j) - 1 + 1 =
      getC s.count (cOf s j) from by omega]
    exact setC_getC s.count (cOf s j)

/-- The core dancing-links inverse, in prefix form: undoing the unlinks of
`L` in exact mirror order step by step retraces the forward states — after
relinking the reversed suffix `L.drop n` the state equals the forward fold
over the prefix `L.take n`.  Hypotheses: the unlinked nodes are pairwise
distinct, each is toroidally linked in `s`, and each one's column has
stored count at least `L.length` (so the biased count never underflows). -/
theorem core_prefix :
    ∀ (L : List Nat) (s : DL),
      L.Nodup →
      (∀ j ∈ L, j < W) →
      (∀ j ∈ L, uOf s (dOf s j) = j ∧ dOf s (uOf s j) = j) →
      (∀ j ∈ L, L.length ≤ getC s.count (cOf s j)) →
      ∀ n, List.foldl relinkCell (List.foldl unlinkCell s L) ((L.drop n).reverse) =
        List.foldl unlinkCell s (L.take n) := by
  intro L
  induction L with
  | nil =>
      intro s _ _ _ _ n
      simp
  | cons j₀ rest ih =>
      intro s hnd hw ht hc n
      have hj₀ : j₀ ∈ j₀ :: rest := List.mem_cons_self _ _
      have ht' : ∀ j ∈ rest, uOf (unlinkCell s j₀) (dOf (unlinkCell s j₀) j) = j ∧
          dOf (unlinkCell s j₀) (uOf (unlinkCell s j₀) j) = j := by
        intro j hj
        exact toroidal_unlink s j₀ j (ht j₀ hj₀) (ht j (List.mem_cons_of_mem _ hj))
          (fun h => (List.nodup_cons.mp hnd).1 (h ▸ hj))
      have hc' : ∀ j ∈ rest, rest.length ≤ getC (unlinkCell s j₀).count
          (cOf (unlinkCell s j₀) j) := by
        intro j hj
        rw [cOf_unlink, getC_unlink]
        have h1 := hc j (List.mem_cons_of_mem _ hj)
        have h2 := hc j₀ hj₀
        simp only [List.length_cons] at h1 h2
        by_cases h : cOf s j = cOf s j₀
        · rw [if_pos h, h] at *
          omega
        · rw [if_neg h]
          omega
      have ihs := ih (unlinkCell s j₀) (List.nodup_cons.mp hnd).2
        (fun j hj => hw j (List.mem_cons_of_mem _ hj)) ht' hc'
      cases n with
      | zero =>
          simp only [List.drop_zero, List.take_zero, List.reverse_cons, List.foldl_cons]
          rw [List.foldl_append]
          have h0 := ihs 0
          simp only [List.drop_zero, List.take_zero] at h0
          rw [h0]
          exact relink_unlink s j₀ (hw j₀ hj₀) (ht j₀ hj₀).1 (ht j₀ hj₀).2 (by
            have := hc j₀ hj₀
            simp only [List.length_cons] at this
            omega)
      | succ m =>
          simp only [List.drop_succ_cons, List.take_succ_cons, List.foldl_cons]
          exact ihs m

/-- The classical statement: a mirrored relink fold inverts an unlink fold. -/
theorem core_inverse (L : List Nat) (s : DL)
    (hnd : L.Nodup)
    (hw : ∀ j ∈ L, j < W)
    (ht : ∀ j ∈ L, uOf s (dOf s j) = j ∧ dOf s (uOf s j) = j)
    (hc : ∀ j ∈ L, L.length ≤ getC s.count (cOf s j)) :
    List.foldl relinkCell (List.foldl unlinkCell s L) L.reverse = s := by
  have h := core_prefix L s hnd hw ht hc 0
  simp only [List.drop_zero, List.take_zero] at h
  exact h

/-! ## Loop traces

`Visits f stop j l` says the loop `for (x = j; x != stop; x = f x)`
performs exactly the iterations listed in `l` (in order) and then halts. -/

def Visits (f : Nat → Nat) (stop : Nat) : Nat → List Nat → Prop
  | j, [] => j = stop
  | j, a :: t => a = j ∧ j ≠ stop ∧ Visits f stop (f j) t

/-- A walk that comes back around to `stop` without passing through it is
the trace of the loop entered at the first pointer `f stop`. -/
theorem walk_visits {f : Nat → Nat} :
    ∀ (l : List Nat) (p stop : Nat), Walk f p l stop → (∀ x ∈ l, x ≠ stop) →
      Visits f stop (f p) l := by
  intro l
  induction l with
  | nil => intro p stop h _; exact h
  | cons a t ih =>
      intro p stop h hne
      refine ⟨h.1.symm, ?_, ?_⟩
      · rw [h.1]
        exact hne a (List.mem_cons_self _ _)
      · rw [h.1]
        exact ih a stop h.2 (fun x hx => hne x (List.mem_cons_of_mem _ hx))

/-- One-step unfolding of the cover row loop. -/
theorem coverRowLoop_succ (fuel : Nat) (s : DL) (i j : Nat) :
    coverRowLoop (fuel + 1) s i j =
      if j = i then s
      else coverRowLoop fuel (unlinkCell s j) i (rOf (unlinkCell s j) j) := rfl

/-- One-step unfolding of the cover column loop. -/
theorem coverColLoop_succ (fuel : Nat) (s : DL) (c i : Nat) :
    coverColLoop (fuel + 1) s c i =
      if i = c then s
      else coverColLoop fuel (coverRowLoop ringFuel s i (rOf s i)) c
        (dOf (coverRowLoop ringFuel s i (rOf s i)) i) := rfl

/-- One-step unfolding of the uncover row loop. -/
theorem uncoverRowLoop_succ (fuel : Nat) (s : DL) (i j : Nat) :
    uncoverRowLoop (fuel + 1) s i j =
      if j = i then s
      else uncoverRowLoop fuel (relinkCell s j) i (lOf (relinkCell s j) j) := rfl

/-- One-step unfolding of the uncover column loop. -/
theorem uncoverColLoop_succ (fuel : Nat) (s : DL) (c i : Nat) :
    uncoverColLoop (fuel + 1) s c i =
      if i = c then s
      else uncoverColLoop fuel (uncoverRowLoop ringFuel s i (lOf s i)) c
        (uOf (uncoverRowLoop ringFuel s i (lOf s i)) i) := rfl

/-- The cover row loop with trace `VL` is the unlink fold over `VL`:
sound because `unlinkCell` never writes the `right` map. -/
theorem coverRowLoop_fold :
    ∀ (VL : List Nat) (fuel : Nat) (s : DL) (i j : Nat),
      Visits (rOf s) i j VL → VL.length < fuel →
      coverRowLoop fuel s i j = List.foldl unlinkCell s VL := by
  intro VL
  induction VL with
  | nil =>
      intro fuel s i j hv hf
      cases fuel with
      | zero => omega
      | succ f => rw [coverRowLoop_succ, if_pos (show j = i from hv)]; rfl
  | cons a t ih =>
      intro fuel s i j hv hf
      cases fuel with
      | zero => simp at hf
      | succ f =>
          obtain ⟨haj, hji, hrest⟩ := hv
          subst haj
          rw [coverRowLoop_succ, if_neg hji, List.foldl_cons]
          exact ih f (unlinkCell s a) i (rOf (unlinkCell s a) a) hrest
            (by simp at hf; omega)

/-- The uncover row loop with trace `VL` is the relink fold over `VL`:
sound because `relinkCell` never writes the `left` map. -/
theorem uncoverRowLoop_fold :
    ∀ (VL : List Nat) (fuel : Nat) (s : DL) (i j : Nat),
      Visits (lOf s) i j VL → VL.length < fuel →
      uncoverRowLoop fuel s i j = List.foldl relinkCell s VL := by
  intro VL
  induction VL with
  | nil =>
      intro fuel s i j hv hf
      cases fuel with
      | zero => omega
      | succ f => rw [uncoverRowLoop_succ, if_pos (show j = i from hv)]; rfl
  | cons a t ih =>
      intro fuel s i j hv hf
      cases fuel with
      | zero => simp at hf
      | succ f =>
          obtain ⟨haj, hji, hrest⟩ := hv
          subst haj
          rw [uncoverRowLoop_succ, if_neg hji, List.foldl_cons]
          exact ih f (relinkCell s a) i (lOf (relinkCell s a) a) hrest
            (by simp at hf; omega)

/-! ## Cover traversal lists and the reachable-state invariant -/

/-- A cell node: one of the 729 × 4 non-header nodes. -/
def isCell (x : Nat) : Prop := columnSize ≤ x ∧ x < numNodes

/-- The three other cells of a cell's candidate row, in right-pointer
order (the cells of a row form a fixed 4-cycle). -/
def rowOthers (x : Nat) : List Nat :=
  [cellNode (nodeRow x) ((nodeSlot x + 1) % cellsPerRow),
   cellNode (nodeRow x) ((nodeSlot x + 2) % cellsPerRow),
   cellNode (nodeRow x) ((nodeSlot x + 3) % cellsPerRow)]

/-- All cells unlinked by `cover` of a column whose vertical ring lists
`cs`: for each ring cell in order, the other three cells of its row. -/
def coverCells : List Nat → List Nat
  | [] => []
  | x :: cs => rowOthers x ++ coverCells cs

/-- Invariant of every matrix state reachable by construction plus a
stack-disciplined sequence of covers, with ghost data: `rings c` lists the
live cells of constraint column `c` top to bottom, `hr` the live
constraint columns in header-ring order after the root. -/
structure GinvP (s : DL) (rings : Nat → List Nat) (hr : List Nat) : Prop where
  colPin : ∀ x, x < W → cOf s x = colClosed x
  rPin : ∀ x, columnSize ≤ x → x < numNodes → rOf s x = rightClosed x
  lPin : ∀ x, columnSize ≤ x → x < numNodes → lOf s x = leftClosed x
  ringsWalk : ∀ c, c < constraintCount → Walk (dOf s) c (rings c) c
  ringsNodup : ∀ c, c < constraintCount → (c :: rings c).Nodup
  ringsMem : ∀ c, c < constraintCount → ∀ x ∈ rings c,
    columnSize ≤ x ∧ x < numNodes ∧ colClosed x = c
  torD : ∀ c, c < constraintCount → ∀ x, x = c ∨ x ∈ rings c → uOf s (dOf s x) = x
  counts : ∀ c, c < constraintCount → getC s.count c = countBias + (rings c).length
  hrWalk : Walk (rOf s) rootIx hr rootIx
  hrNodup : (rootIx :: hr).Nodup
  hrMem : ∀ h ∈ hr, h < constraintCount
  hrTorL : ∀ x, x = rootIx ∨ x ∈ hr → lOf s (rOf s x) = x
  deadHdr : ∀ c, c < constraintCount → c ∉ hr → lOf s (rOf s c) ≠ c
  rowLive : ∀ c ∈ hr, ∀ x ∈ rings c, ∀ k, k < cellsPerRow →
    colClosed (cellNode (nodeRow x) k) ∈ hr ∧
    cellNode (nodeRow x) k ∈ rings (colClosed (cellNode (nodeRow x) k))

/-- On a ring closed at `c`, every node's successor stays in the ring. -/
theorem walk_next_mem {f : Nat → Nat} :
    ∀ (l : List Nat) (p q x : Nat), Walk f p l q → (x = p ∨ x ∈ l) →
      (f x ∈ l ∨ f x = q) := by
  intro l
  induction l with
  | nil =>
      intro p q x h hx
      rcases hx with rfl | hx
      · exact Or.inr h
      · cases hx
  | cons a t ih =>
      intro p q x h hx
      rcases hx with rfl | hx
      · exact Or.inl (h.1 ▸ List.mem_cons_self _ _)
      · rcases List.mem_cons.mp hx with hxa | hx
        · rcases ih a q x h.2 (Or.inl hxa) with h' | h'
          · exact Or.inl (List.mem_cons_of_mem _ h')
          · exact Or.inr h'
        · rcases ih a q x h.2 (Or.inr hx) with h' | h'
          · exact Or.inl (List.mem_cons_of_mem _ h')
          · exact Or.inr h'

/-- On a ring closed at `c` where `g` inverts `f` from the left, every
node's `g`-value is the ring predecessor: it lies in the ring and `f`
sends it back. -/
theorem walk_pred_full (f g : Nat → Nat) (c : Nat) (l : List Nat)
    (hw : Walk f c l c)
    (htd : ∀ x, x = c ∨ x ∈ l → g (f x) = x) :
    ∀ x, x = c ∨ x ∈ l → ((g x = c ∨ g x ∈ l) ∧ f (g x) = x) := by
  intro x hx
  rcases hx with rfl | hx
  · rcases List.eq_nil_or_concat l with rfl | ⟨l', z, rfl⟩
    · have hd : f x = x := hw
      have := htd x (Or.inl rfl)
      rw [hd] at this
      constructor
      · exact Or.inl (by rw [this])
      · rw [this, hd]
    · rw [List.concat_eq_append] at hw
      have hdz : f z = x := walk_last_pred l' x z x hw
      have hgx : g x = z := by rw [← hdz, htd z (Or.inr (by simp))]
      constructor
      · exact Or.inr (by rw [hgx]; simp)
      · rw [hgx, hdz]
  · obtain ⟨q, hq, hfq⟩ := walk_mem_pred l c c x hw hx
    have hgx : g x = q := by rw [← hfq, htd q hq]
    constructor
    · rcases hq with rfl | hq
      · exact Or.inl (by rw [hgx])
      · exact Or.inr (by rw [hgx]; exact hq)
    · rw [hgx, hfq]

/-- A tiny state whose header ring is the root alone. -/
def rootOnlyState : SState :=
  { m := { emptyDL with right := setD 0 rootIx rootIx }, sol := 0
    reports := [], fuelOut := false }

/-- Witness for `c2_success_reports_and_returns` at a concrete state. -/
theorem c2_success_witness :
    rOf rootOnlyState.m rootIx = rootIx ∧
      searchF 1 0 rootOnlyState
        = { rootOnlyState with
            reports := rootOnlyState.reports ++ [snapshot rootOnlyState.sol] } :=
  ⟨by decide, c2_success_reports_and_returns 0 0 rootOnlyState (by decide)⟩

end DLX
